import Mathlib

/-!
# Snake-Game: a shallow embedding of `snakegamev2.cpp`

The file embeds the simulation part of the two-player snake game (the classes
`Snake` and `Game`, without the SDL drawing calls) and proves properties of it.

Modelling conventions.

* C++ `int` is embedded as `Int`.  Coordinates of every cell that the game
  itself produces lie in the 40x30 grid and a step changes a coordinate by
  one, so no arithmetic of the game's own states leaves the 32-bit range;
  scores are treated as unbounded integers.
* `std::deque<SDL_Point>` is a `List SDL_Point`, head of the snake first.
  `front()` of an empty deque is undefined behaviour in C++; the operations
  that call it return `none` there.
* `rand()` returns a value in `[0, RAND_MAX]`; the sequence of values it hands
  out is a parameter `r : Nat → Nat` (the `i`-th call returns `r i`) and the
  number of calls made so far is carried in the state.
* The `while (true)` loops of the food placement take a fuel argument that
  bounds the number of iterations; `none` means that the loop has not
  finished within that many iterations.
* The loop of `Game::run()` is a step relation on game states: a step handles
  one event (`handleInput`) or runs one tick (`update`); rendering and frame
  timing do not act on the state.
-/

namespace SnakeGame

/-! ## Constants (lines 10-14) -/

def SCREEN_WIDTH : Int := 800
def SCREEN_HEIGHT : Int := 600
def GRID_SIZE : Int := 20
def GRID_WIDTH : Int := SCREEN_WIDTH / GRID_SIZE
def GRID_HEIGHT : Int := SCREEN_HEIGHT / GRID_SIZE

/-! ## `SDL_Point` and `Snake` (lines 16-83) -/

/-- The SDL structure of two `int` coordinates. -/
structure SDL_Point where
  x : Int
  y : Int
deriving DecidableEq, Repr

/-- The enumeration `Snake::Direction`. -/
inductive Direction where
  | UP
  | DOWN
  | LEFT
  | RIGHT
deriving DecidableEq, Repr

/-- The private members of `class Snake`. -/
structure Snake where
  body : List SDL_Point
  direction : Direction
  growing : Bool
deriving DecidableEq, Repr

namespace Snake

/-- The constructor `Snake(startX, startY, startDirection)`; `growing` takes
its default member initialiser `false`. -/
def new (startX startY : Int) (startDirection : Direction) : Snake :=
  { body := [⟨startX, startY⟩], direction := startDirection, growing := false }

/-- Lines 27-40 of `Snake::move()`: the copy of the front cell, shifted one
cell along the heading and wrapped at the four edges of the grid. -/
def steppedHead (direction : Direction) (front : SDL_Point) : SDL_Point :=
  let newHead : SDL_Point := front
  let newHead : SDL_Point :=
    match direction with
    | Direction.UP => { newHead with y := newHead.y - 1 }
    | Direction.DOWN => { newHead with y := newHead.y + 1 }
    | Direction.LEFT => { newHead with x := newHead.x - 1 }
    | Direction.RIGHT => { newHead with x := newHead.x + 1 }
  let newHead : SDL_Point :=
    if newHead.x < 0 then { newHead with x := GRID_WIDTH - 1 } else newHead
  let newHead : SDL_Point :=
    if newHead.x ≥ GRID_WIDTH then { newHead with x := 0 } else newHead
  let newHead : SDL_Point :=
    if newHead.y < 0 then { newHead with y := GRID_HEIGHT - 1 } else newHead
  let newHead : SDL_Point :=
    if newHead.y ≥ GRID_HEIGHT then { newHead with y := 0 } else newHead
  newHead

/-- The method `Snake::move()`; `none` stands for `front()` of an empty body. -/
def move (s : Snake) : Option Snake :=
  match s.body with
  | [] => none
  | front :: _ =>
    let newHead : SDL_Point := steppedHead s.direction front
    let body := newHead :: s.body
    let body := if !s.growing then body.dropLast else body
    some { s with body := body, growing := false }

/-- The method `Snake::grow()`. -/
def grow (s : Snake) : Snake :=
  { s with growing := true }

/-- The loop of `checkSelfCollision()` over the segments from `begin() + 1`. -/
def checkSelfCollisionLoop (head : SDL_Point) : List SDL_Point → Bool
  | [] => false
  | it :: rest =>
    if head.x = it.x ∧ head.y = it.y then true
    else checkSelfCollisionLoop head rest

/-- The method `Snake::checkSelfCollision()`: the value returned and the
snake after the call; `none` stands for `front()` of an empty body. -/
def checkSelfCollision (s : Snake) : Option (Bool × Snake) :=
  match s.body with
  | [] => none
  | head :: rest => some (checkSelfCollisionLoop head rest, s)

/-- The method `Snake::setDirection(newDir)`. -/
def setDirection (s : Snake) (newDir : Direction) : Snake :=
  if (s.direction = Direction.UP ∧ newDir = Direction.DOWN) ∨
     (s.direction = Direction.DOWN ∧ newDir = Direction.UP) ∨
     (s.direction = Direction.LEFT ∧ newDir = Direction.RIGHT) ∨
     (s.direction = Direction.RIGHT ∧ newDir = Direction.LEFT) then
    s
  else
    { s with direction := newDir }

end Snake

/-! ## `Game` (lines 85-392) -/

/-- The members of `class Game` that the simulation uses, together with the
two pieces of the environment that the simulation acts on: `randCalls`, the
number of `rand()` calls made so far, and `screen`, the messages that
`renderMessage` has put on the screen, oldest first. -/
structure Game where
  snake1 : Snake
  snake2 : Snake
  food : SDL_Point
  bonusFood : SDL_Point
  score1 : Int
  score2 : Int
  bonusFoodTimer : Int
  randCalls : Nat
  screen : List String
deriving DecidableEq, Repr

/-- The two players; selects the pair of references `(snake1, score1)` or
`(snake2, score2)` that `checkFoodCollision` is called with. -/
inductive Player where
  | one
  | two
deriving DecidableEq, Repr

/-- The scan `for (segment : body) if (p.x == segment.x && p.y == segment.y)`
that the food placement and the cross-collision test run over a body: whether
some segment has both coordinates equal to those of `p`. -/
def onBody (p : SDL_Point) (body : List SDL_Point) : Bool :=
  body.any fun segment => decide (p.x = segment.x ∧ p.y = segment.y)

/-- The method `Game::placeFood()`, with at most `fuel` iterations of its loop. -/
def placeFood (r : Nat → Nat) : Nat → Game → Option Game
  | 0, _ => none
  | fuel + 1, g =>
    let g := { g with food := { g.food with x := (r g.randCalls : Int) % GRID_WIDTH },
                      randCalls := g.randCalls + 1 }
    let g := { g with food := { g.food with y := (r g.randCalls : Int) % GRID_HEIGHT },
                      randCalls := g.randCalls + 1 }
    let validPosition := true
    let validPosition := if onBody g.food g.snake1.body then false else validPosition
    let validPosition := if onBody g.food g.snake2.body then false else validPosition
    if validPosition then some g else placeFood r fuel g

/-- The method `Game::placeBonusFood()`, with at most `fuel` iterations of its
loop. -/
def placeBonusFood (r : Nat → Nat) : Nat → Game → Option Game
  | 0, _ => none
  | fuel + 1, g =>
    let g := { g with bonusFood := { g.bonusFood with x := (r g.randCalls : Int) % GRID_WIDTH },
                      randCalls := g.randCalls + 1 }
    let g := { g with bonusFood := { g.bonusFood with y := (r g.randCalls : Int) % GRID_HEIGHT },
                      randCalls := g.randCalls + 1 }
    let validPosition := true
    let validPosition := if onBody g.bonusFood g.snake1.body then false else validPosition
    let validPosition := if onBody g.bonusFood g.snake2.body then false else validPosition
    if validPosition then some g else placeBonusFood r fuel g

/-- The method `Game::checkFoodCollision(snake, score)`, called with the
references of player `p`. -/
def checkFoodCollision (r : Nat → Nat) (fuel : Nat) (p : Player) (g : Game) :
    Option Game :=
  match p with
  | Player.one =>
    match g.snake1.body with
    | [] => none
    | head :: _ =>
      if head.x = g.food.x ∧ head.y = g.food.y then
        placeFood r fuel { g with snake1 := g.snake1.grow, score1 := g.score1 + 1 }
      else some g
  | Player.two =>
    match g.snake2.body with
    | [] => none
    | head :: _ =>
      if head.x = g.food.x ∧ head.y = g.food.y then
        placeFood r fuel { g with snake2 := g.snake2.grow, score2 := g.score2 + 1 }
      else some g

/-- The method `Game::renderMessage(message)`: the message is put on the
screen. -/
def renderMessage (message : String) (g : Game) : Game :=
  { g with screen := g.screen ++ [message] }

/-- The method `Game::resetGame(message)`; the three-second `SDL_Delay` does
not act on the state. -/
def resetGame (r : Nat → Nat) (fuel : Nat) (message : String) (g : Game) :
    Option Game :=
  let g := renderMessage message g
  let g := { g with snake1 := Snake.new (GRID_WIDTH / 4) (GRID_HEIGHT / 2) Direction.RIGHT }
  let g := { g with snake2 := Snake.new (3 * GRID_WIDTH / 4) (GRID_HEIGHT / 2) Direction.LEFT }
  let g := { g with score1 := 0 }
  let g := { g with score2 := 0 }
  (placeFood r fuel g).bind fun g =>
  placeBonusFood r fuel g

/-- Lines 187-194 of `Game::update()`: the bonus-food test of snake 1. -/
def bonusCheck1 (r : Nat → Nat) (fuel : Nat) (head1 : SDL_Point) (g : Game) :
    Option Game :=
  if head1.x = g.bonusFood.x ∧ head1.y = g.bonusFood.y then
    placeBonusFood r fuel { g with snake1 := g.snake1.grow, score1 := g.score1 + 2 }
  else some g

/-- Lines 195-199 of `Game::update()`: the bonus-food test of snake 2. -/
def bonusCheck2 (r : Nat → Nat) (fuel : Nat) (head2 : SDL_Point) (g : Game) :
    Option Game :=
  if head2.x = g.bonusFood.x ∧ head2.y = g.bonusFood.y then
    placeBonusFood r fuel { g with snake2 := g.snake2.grow, score2 := g.score2 + 2 }
  else some g

/-- Lines 201-230 of `Game::update()`: the self-collision tests, the
cross-collision tests and the bonus-food timer. -/
def collisionsAndTimer (r : Nat → Nat) (fuel : Nat) (head1 head2 : SDL_Point)
    (g : Game) : Option Game :=
  g.snake1.checkSelfCollision.bind fun (hit1, s1) =>
  let g := { g with snake1 := s1 }
  if hit1 then
    resetGame r fuel "Player 1 (Green) died by self-collision. Player 2 (Blue) wins!" g
  else
  g.snake2.checkSelfCollision.bind fun (hit2, s2) =>
  let g := { g with snake2 := s2 }
  if hit2 then
    resetGame r fuel "Player 2 (Blue) died by self-collision. Player 1 (Green) wins!" g
  else if onBody head2 g.snake1.body then
    resetGame r fuel
      "Player 2 (Blue) died by colliding into Player 1 (Green). Player 1 wins!" g
  else if onBody head1 g.snake2.body then
    resetGame r fuel
      "Player 1 (Green) died by colliding into Player 2 (Blue). Player 2 wins!" g
  else
    let g := { g with bonusFoodTimer := g.bonusFoodTimer + 1 }
    if g.bonusFoodTimer > 1000 then
      (placeBonusFood r fuel g).bind fun g =>
      some { g with bonusFoodTimer := 0 }
    else some g

/-- The method `Game::update()`: one tick. -/
def update (r : Nat → Nat) (fuel : Nat) (g : Game) : Option Game :=
  g.snake1.move.bind fun s1 =>
  let g := { g with snake1 := s1 }
  g.snake2.move.bind fun s2 =>
  let g := { g with snake2 := s2 }
  (checkFoodCollision r fuel Player.one g).bind fun g =>
  (checkFoodCollision r fuel Player.two g).bind fun g =>
  g.snake1.body.head?.bind fun head1 =>
  g.snake2.body.head?.bind fun head2 =>
  (bonusCheck1 r fuel head1 g).bind fun g =>
  (bonusCheck2 r fuel head2 g).bind fun g =>
  collisionsAndTimer r fuel head1 head2 g

/-- The key symbols of SDL that `Game::handleInput` distinguishes; `other`
stands for every other key. -/
inductive Keycode where
  | SDLK_w
  | SDLK_s
  | SDLK_a
  | SDLK_d
  | SDLK_UP
  | SDLK_DOWN
  | SDLK_LEFT
  | SDLK_RIGHT
  | other
deriving DecidableEq, Repr

/-- The part of SDL's event type that `Game::run` and `Game::handleInput`
inspect: the type of the event and, for a key press, the key symbol; `other`
stands for every other type of event. -/
inductive SDL_Event where
  | SDL_QUIT
  | SDL_KEYDOWN (sym : Keycode)
  | other
deriving DecidableEq, Repr

/-- The method `Game::handleInput(e)`. -/
def handleInput (e : SDL_Event) (g : Game) : Game :=
  match e with
  | SDL_Event.SDL_KEYDOWN sym =>
    match sym with
    | Keycode.SDLK_w => { g with snake1 := g.snake1.setDirection Direction.UP }
    | Keycode.SDLK_s => { g with snake1 := g.snake1.setDirection Direction.DOWN }
    | Keycode.SDLK_a => { g with snake1 := g.snake1.setDirection Direction.LEFT }
    | Keycode.SDLK_d => { g with snake1 := g.snake1.setDirection Direction.RIGHT }
    | Keycode.SDLK_UP => { g with snake2 := g.snake2.setDirection Direction.UP }
    | Keycode.SDLK_DOWN => { g with snake2 := g.snake2.setDirection Direction.DOWN }
    | Keycode.SDLK_LEFT => { g with snake2 := g.snake2.setDirection Direction.LEFT }
    | Keycode.SDLK_RIGHT => { g with snake2 := g.snake2.setDirection Direction.RIGHT }
    | Keycode.other => g
  | _ => g

/-- The constructor `Game()`, once the window and the font are there: the
default member initialisers, then `placeFood()` and `placeBonusFood()`.  The
members `food` and `bonusFood` have no initialiser; `food0` and `bonus0` are
the values they happen to hold before the two calls overwrite them. -/
def Game.new (r : Nat → Nat) (fuel : Nat) (food0 bonus0 : SDL_Point) : Option Game :=
  let g : Game :=
    { snake1 := Snake.new (GRID_WIDTH / 4) (GRID_HEIGHT / 2) Direction.RIGHT
      snake2 := Snake.new (3 * GRID_WIDTH / 4) (GRID_HEIGHT / 2) Direction.LEFT
      food := food0
      bonusFood := bonus0
      score1 := 0
      score2 := 0
      bonusFoodTimer := 0
      randCalls := 0
      screen := [] }
  (placeFood r fuel g).bind fun g =>
  placeBonusFood r fuel g

/-- The states that the loop of `Game::run()` passes through: the state the
constructor leaves, and from a state of the loop the state after
`handleInput` of an event and the state after a returned `update()`. -/
inductive Reachable (r : Nat → Nat) : Game → Prop where
  | start (fuel : Nat) (food0 bonus0 : SDL_Point) (g : Game) :
      Game.new r fuel food0 bonus0 = some g → Reachable r g
  | input (e : SDL_Event) (g : Game) : Reachable r g → Reachable r (handleInput e g)
  | tick (fuel : Nat) (g g' : Game) :
      Reachable r g → update r fuel g = some g' → Reachable r g'

/-- The loop of `Game::run()` over the given frames: each frame handles its
pending events in order and then runs `update()`. -/
def runFrames (r : Nat → Nat) (fuel : Nat) : List (List SDL_Event) → Game → Option Game
  | [], g => some g
  | events :: rest, g =>
    (update r fuel (events.foldl (fun g e => handleInput e g) g)).bind
      (runFrames r fuel rest)

/-! ## Calls on one snake -/

/-- A call of one of the three mutating methods of `Snake`, as `Game::update`
(`move`, `grow`) and `Game::handleInput` (`setDirection`) issue them. -/
inductive Call where
  | move
  | grow
  | setDirection (newDir : Direction)
deriving DecidableEq, Repr

/-- Runs a sequence of calls on a snake; returns the final snake and the
headings that the `move()` calls used, in order.  `none` stands for a `move()`
on an empty body. -/
def runCalls : Snake → List Call → Option (Snake × List Direction)
  | s, [] => some (s, [])
  | s, Call.move :: rest =>
    s.move.bind fun s' =>
    (runCalls s' rest).bind fun (t, used) => some (t, s.direction :: used)
  | s, Call.grow :: rest => runCalls s.grow rest
  | s, Call.setDirection newDir :: rest => runCalls (s.setDirection newDir) rest

/-! ## Vocabulary of the specification -/

/-- The exact opposite of a heading (Up/Down, Left/Right). -/
def Direction.opposite : Direction → Direction
  | Direction.UP => Direction.DOWN
  | Direction.DOWN => Direction.UP
  | Direction.LEFT => Direction.RIGHT
  | Direction.RIGHT => Direction.LEFT

/-- A cell of the 40x30 grid. -/
def InGrid (p : SDL_Point) : Prop :=
  0 ≤ p.x ∧ p.x < 40 ∧ 0 ≤ p.y ∧ p.y < 30

instance (p : SDL_Point) : Decidable (InGrid p) := by
  unfold InGrid; infer_instance

/-- The displacement `(dx, dy)` of one step along a heading. -/
def Direction.delta : Direction → Int × Int
  | Direction.UP => (0, -1)
  | Direction.DOWN => (0, 1)
  | Direction.LEFT => (-1, 0)
  | Direction.RIGHT => (1, 0)

/-- Two consecutive entries of a list of headings are exact opposites. -/
def HasReversal : List Direction → Prop
  | a :: b :: rest => b = a.opposite ∨ HasReversal (b :: rest)
  | _ => False

/-- Three presses of the keys of player 1 around two ticks: two moves with
growth, then `w` and `a` pressed between two ticks, then the move of the next
tick. -/
def reversalCalls : List Call :=
  [Call.grow, Call.move, Call.grow, Call.move,
   Call.setDirection Direction.UP, Call.setDirection Direction.LEFT, Call.move]

/-- A snake on the left edge of the grid, heading Left. -/
def leftEdgeSnake : Snake :=
  { body := [⟨0, 7⟩, ⟨1, 7⟩, ⟨1, 8⟩], direction := Direction.LEFT, growing := false }

/-- A snake of four cells whose head lies on its last cell. -/
def coiledSnake : Snake :=
  { body := [⟨5, 5⟩, ⟨5, 6⟩, ⟨6, 6⟩, ⟨5, 5⟩], direction := Direction.UP, growing := false }

/-- The cell that an iteration of a placement loop draws when `i` calls of
`rand()` have been made before it. -/
def drawCell (r : Nat → Nat) (i : Nat) : SDL_Point :=
  ⟨(r i : Int) % 40, (r (i + 1) : Int) % 30⟩

/-- The cell `c` equals no body cell of snake 1 and no body cell of snake 2. -/
def OffSnakes (g : Game) (c : SDL_Point) : Prop :=
  c ∉ g.snake1.body ∧ c ∉ g.snake2.body

instance (g : Game) (c : SDL_Point) : Decidable (OffSnakes g c) := by
  unfold OffSnakes; infer_instance

/-- The `k`-th cell drawn from the current position of the stream (counting
from 0) is the first drawn cell that is off both snakes. -/
def FirstFree (r : Nat → Nat) (g : Game) (k : Nat) : Prop :=
  OffSnakes g (drawCell r (g.randCalls + 2 * k)) ∧
  ∀ j, j < k → ¬ OffSnakes g (drawCell r (g.randCalls + 2 * j))

/-- A stream of draws that starts with the two start cells of the snakes and
then the cell `(3, 4)`, and returns 7 from then on. -/
def sampleDraws (i : Nat) : Nat :=
  [10, 15, 30, 15, 3, 4].getD i 7

/-- The state in which both snakes are at their start cells and the two food
items lie next to snake 1. -/
def sampleGame : Game :=
  { snake1 := Snake.new 10 15 Direction.RIGHT
    snake2 := Snake.new 30 15 Direction.LEFT
    food := ⟨11, 15⟩
    bonusFood := ⟨12, 15⟩
    score1 := 0
    score2 := 0
    bonusFoodTimer := 0
    randCalls := 0
    screen := [] }

/-- Every cell of the grid keeps being drawn: from every later position that
an iteration of a placement loop can start at, the stream `r` read from call
number `p` on draws every cell of the grid again. -/
def Fair (r : Nat → Nat) (p : Nat) : Prop :=
  ∀ (j : Nat) (c : SDL_Point), InGrid c → ∃ k, drawCell r (p + 2 * (j + k)) = c

/-- The computation `f`, run with fuel `fuel`, returns `g'` for every
sufficiently large fuel. -/
def Settles (f : Nat → Option Game) (g' : Game) : Prop :=
  ∃ N, ∀ fuel, N ≤ fuel → f fuel = some g'

/-- In `g` the stream can be read fairly from the current position and the
bodies of the two snakes are `b1` and `b2`. -/
def Stable (r : Nat → Nat) (b1 b2 : List SDL_Point) (g : Game) : Prop :=
  Fair r g.randCalls ∧ g.snake1.body = b1 ∧ g.snake2.body = b2

/-- The stream that draws the cells of the grid one after the other, column
by column, again and again. -/
def cycleDraws (i : Nat) : Nat :=
  if i % 2 = 0 then (i / 2 % 1200) / 30 else (i / 2 % 1200) % 30

/-- The state of `sampleGame` with the bonus food on the same cell as the
regular food, the cell that the head of snake 1 enters next. -/
def overlapGame : Game :=
  { sampleGame with bonusFood := ⟨11, 15⟩ }

/-- A state in which the heads of both snakes enter the food cell `(11, 15)`
on their next move. -/
def headOnGame : Game :=
  { sampleGame with snake2 := Snake.new 12 15 Direction.LEFT, bonusFood := ⟨20, 20⟩ }

/-- The state of `sampleGame` with snake 1 coiled so that its head, heading
Right, enters the cell of its fourth segment. -/
def coilingGame : Game :=
  { sampleGame with
    snake1 := { body := [⟨5, 5⟩, ⟨5, 6⟩, ⟨6, 6⟩, ⟨6, 5⟩, ⟨7, 5⟩],
                direction := Direction.RIGHT, growing := false }
    score1 := 4 }

/-- The state after one tick on `sampleGame` with the draws `cycleDraws`:
snake 1 has eaten the regular food. -/
def fedGame : Game :=
  { snake1 := { body := [⟨11, 15⟩], direction := Direction.RIGHT, growing := true }
    snake2 := { body := [⟨29, 15⟩], direction := Direction.LEFT, growing := false }
    food := ⟨0, 0⟩
    bonusFood := ⟨12, 15⟩
    score1 := 1
    score2 := 0
    bonusFoodTimer := 1
    randCalls := 2
    screen := [] }

/-- The state after a round reset with the draws `cycleDraws` read from the
start, showing `message`. -/
def restartedGame (message : String) : Game :=
  { snake1 := { body := [⟨10, 15⟩], direction := Direction.RIGHT, growing := false }
    snake2 := { body := [⟨30, 15⟩], direction := Direction.LEFT, growing := false }
    food := ⟨0, 0⟩
    bonusFood := ⟨0, 1⟩
    score1 := 0
    score2 := 0
    bonusFoodTimer := 0
    randCalls := 4
    screen := [message] }

/-- The state at the start of a round: both snakes are single cells at their
start positions with their start headings and no pending growth, both scores
are 0, and both food items lie off both snakes. -/
def FreshRound (g : Game) : Prop :=
  g.snake1 = { body := [⟨10, 15⟩], direction := Direction.RIGHT, growing := false } ∧
  g.snake2 = { body := [⟨30, 15⟩], direction := Direction.LEFT, growing := false } ∧
  g.score1 = 0 ∧ g.score2 = 0 ∧
  OffSnakes g g.food ∧ OffSnakes g g.bonusFood

/-- The calls that drive a snake round a 2x2 loop: headings Right, Down, Left
and Up, with `grow()` before each of the four moves. -/
def loopCalls : List Call :=
  [Call.setDirection Direction.RIGHT, Call.grow, Call.move,
   Call.setDirection Direction.DOWN, Call.grow, Call.move,
   Call.setDirection Direction.LEFT, Call.grow, Call.move,
   Call.setDirection Direction.UP, Call.grow, Call.move]

/-- A snake of four cells that fills a 2x2 square, heading Right into the cell
of its own last segment. -/
def squareSnake : Snake :=
  { body := [⟨5, 5⟩, ⟨5, 6⟩, ⟨6, 6⟩, ⟨6, 5⟩], direction := Direction.RIGHT, growing := false }

/-- The state of `sampleGame` with both food items in row 20, away from the
snakes. -/
def idleGame : Game :=
  { sampleGame with food := ⟨0, 20⟩, bonusFood := ⟨1, 20⟩ }

/-- The state of `idleGame` with snake 2 coiled so that its head, heading
Right, enters the cell of its fourth segment. -/
def coilingGame2 : Game :=
  { idleGame with
    snake2 := { body := [⟨5, 5⟩, ⟨5, 6⟩, ⟨6, 6⟩, ⟨6, 5⟩, ⟨7, 5⟩],
                direction := Direction.RIGHT, growing := false }
    score2 := 4 }

/-- The state of `idleGame` with the two heads about to enter the same cell
`(11, 15)`. -/
def crashGame : Game :=
  { idleGame with snake2 := Snake.new 12 15 Direction.LEFT }

/-- The state of `idleGame` with the head of snake 1 about to enter a cell of
the body of snake 2, away from the head of snake 2. -/
def sideHitGame : Game :=
  { idleGame with
    snake1 := Snake.new 19 11 Direction.RIGHT
    snake2 := { body := [⟨20, 10⟩, ⟨20, 11⟩, ⟨20, 12⟩], direction := Direction.UP,
                growing := false }
    score2 := 2 }

/-- The coiled body of `coilingGame` and `coilingGame2` after its move. -/
def coiledAfterMove : Snake :=
  { body := [⟨6, 5⟩, ⟨5, 5⟩, ⟨5, 6⟩, ⟨6, 6⟩, ⟨6, 5⟩], direction := Direction.RIGHT,
    growing := false }

/-- The state of `sampleGame` with the bonus food on the cell that the head of
snake 1 enters next and the regular food on the cell that the head of snake 2
enters next. -/
def bonusGame : Game :=
  { sampleGame with food := ⟨29, 15⟩, bonusFood := ⟨11, 15⟩ }

/-- The state of `sampleGame` with the bonus food on the cell that the head of
snake 1 enters next and the regular food away from both snakes. -/
def bonusOnlyGame : Game :=
  { sampleGame with food := ⟨0, 20⟩, bonusFood := ⟨11, 15⟩ }

/-- The state of `overlapGame` with the head of snake 2 about to enter the
cell of the two food items as well. -/
def overlapCrashGame : Game :=
  { overlapGame with snake2 := Snake.new 12 15 Direction.LEFT }

/-- The number of cells that a snake has gained or is about to gain: its body
length minus one, plus one when growth is pending. -/
def gained (s : Snake) : Int :=
  ((s.body.length : Int) - 1) + (if s.growing then 1 else 0)

/-- Each score lies between the number of cells its snake has gained or is
about to gain and three times that number. -/
def ScoreBounds (g : Game) : Prop :=
  gained g.snake1 ≤ g.score1 ∧ g.score1 ≤ 3 * gained g.snake1 ∧
  gained g.snake2 ≤ g.score2 ∧ g.score2 ≤ 3 * gained g.snake2

/-- The state that the constructor leaves with the draws `cycleDraws`. -/
def firstGame : Game :=
  { snake1 := { body := [⟨10, 15⟩], direction := Direction.RIGHT, growing := false }
    snake2 := { body := [⟨30, 15⟩], direction := Direction.LEFT, growing := false }
    food := ⟨0, 0⟩
    bonusFood := ⟨0, 1⟩
    score1 := 0
    score2 := 0
    bonusFoodTimer := 0
    randCalls := 4
    screen := [] }

/-- The state after the constructor, the key `w` and one tick, with the draws
`cycleDraws`. -/
def secondGame : Game :=
  { firstGame with
    snake1 := { body := [⟨10, 14⟩], direction := Direction.UP, growing := false }
    snake2 := { body := [⟨29, 15⟩], direction := Direction.LEFT, growing := false }
    bonusFoodTimer := 1 }

/-- A stream of draws that places the regular food and the bonus food on the
two cells in front of snake 1, then draws `(3, 4)` and `(5, 6)`, and returns 7
from then on. -/
def nearDraws (i : Nat) : Nat :=
  [11, 15, 12, 15, 3, 4, 5, 6].getD i 7

/-- The state that the constructor leaves with the draws `nearDraws`. -/
def nearFirst : Game :=
  { firstGame with food := ⟨11, 15⟩, bonusFood := ⟨12, 15⟩ }

/-- The state two frames after `nearFirst`: snake 1 has eaten the regular food
in the first tick and the bonus food in the second. -/
def grownGame : Game :=
  { snake1 := { body := [⟨12, 15⟩, ⟨11, 15⟩], direction := Direction.RIGHT, growing := true }
    snake2 := { body := [⟨28, 15⟩], direction := Direction.LEFT, growing := false }
    food := ⟨3, 4⟩
    bonusFood := ⟨5, 6⟩
    score1 := 3
    score2 := 0
    bonusFoodTimer := 2
    randCalls := 8
    screen := [] }

/-- The state one frame after `grownGame` in which the keys `s` and Up were
pressed: snake 1 has grown to three cells and both snakes have turned. -/
def steeredGame : Game :=
  { grownGame with
    snake1 := { body := [⟨12, 16⟩, ⟨12, 15⟩, ⟨11, 15⟩], direction := Direction.DOWN,
                growing := false }
    snake2 := { body := [⟨28, 14⟩], direction := Direction.UP, growing := false }
    bonusFoodTimer := 3 }

/-- The state ten frames after `nearFirst` without any key: the heads have met
on `(20, 15)` and the round has been reset. -/
def crashedGame : Game :=
  { firstGame with
    food := ⟨7, 7⟩
    bonusFood := ⟨7, 7⟩
    bonusFoodTimer := 9
    randCalls := 12
    screen := ["Player 2 (Blue) died by colliding into Player 1 (Green). Player 1 wins!"] }

/-- The state `gd` of a tick after the four food tests, when the tick started
in `g` and the moved snakes `s1` and `s2` have heads `head1` and `head2`:
a snake whose head is on an item grows and scores (1 for the regular food, 2
for the bonus food), snake 2 only when snake 1 has not taken the item; an item
that is taken is re-placed off both snakes; the timer and the screen are
untouched. -/
def AfterFood (g : Game) (s1 s2 : Snake) (head1 head2 : SDL_Point) (gd : Game) : Prop :=
  gd.snake1 = (if head1 = g.food ∨ head1 = g.bonusFood then s1.grow else s1) ∧
  gd.snake2 = (if (head2 = g.food ∧ head1 ≠ g.food) ∨
      (head2 = g.bonusFood ∧ head1 ≠ g.bonusFood) then s2.grow else s2) ∧
  gd.score1 = g.score1 + (if head1 = g.food then 1 else 0) +
    (if head1 = g.bonusFood then 2 else 0) ∧
  gd.score2 = g.score2 + (if head2 = g.food ∧ head1 ≠ g.food then 1 else 0) +
    (if head2 = g.bonusFood ∧ head1 ≠ g.bonusFood then 2 else 0) ∧
  (if head1 = g.food ∨ head2 = g.food then gd.food ∉ s1.body ∧ gd.food ∉ s2.body
    else gd.food = g.food) ∧
  (if head1 = g.bonusFood ∨ head2 = g.bonusFood then
      gd.bonusFood ∉ s1.body ∧ gd.bonusFood ∉ s2.body
    else gd.bonusFood = g.bonusFood) ∧
  gd.bonusFoodTimer = g.bonusFoodTimer ∧ gd.screen = g.screen

/-- None of the four collision tests of a tick fires on bodies
`head1 :: rest1` and `head2 :: rest2`. -/
def Clear (head1 head2 : SDL_Point) (rest1 rest2 : List SDL_Point) : Prop :=
  head1 ∉ rest1 ∧ head2 ∉ rest2 ∧ head2 ∉ head1 :: rest1 ∧ head1 ∉ head2 :: rest2

/-- The four messages of `Game::update()`. -/
def selfMessage1 : String :=
  "Player 1 (Green) died by self-collision. Player 2 (Blue) wins!"

def selfMessage2 : String :=
  "Player 2 (Blue) died by self-collision. Player 1 (Green) wins!"

def crossMessage2 : String :=
  "Player 2 (Blue) died by colliding into Player 1 (Green). Player 1 wins!"

def crossMessage1 : String :=
  "Player 1 (Green) died by colliding into Player 2 (Blue). Player 2 wins!"

/-! ## Theorems -/

theorem GRID_WIDTH_eq : GRID_WIDTH = 40 := by decide

theorem GRID_HEIGHT_eq : GRID_HEIGHT = 30 := by decide

/-- C1: `setDirection(d)` leaves the snake completely unchanged when `d` is the
exact opposite of the current heading, and otherwise makes `d` the heading; in
both cases the body and the pending-growth flag are unchanged. -/
theorem setDirection_spec (s : Snake) (d : Direction) :
    s.setDirection d =
        (if d = s.direction.opposite then s else { s with direction := d }) ∧
      (s.setDirection d).body = s.body ∧
      (s.setDirection d).growing = s.growing := by
  obtain ⟨body, dir, growing⟩ := s
  cases dir <;> cases d <;> simp [Snake.setDirection, Direction.opposite]

/-- C2 as stated fails: a snake heading Down that receives `setDirection(UP)`
and then `setDirection(DOWN)` is left heading Down, not Up. -/
theorem setDirection_pair_counterexample :
    (((Snake.new 10 15 Direction.DOWN).setDirection Direction.UP).setDirection
      Direction.UP.opposite).direction ≠ Direction.UP := by
  decide

/-- C2 (amended): `setDirection(h)` followed by `setDirection(h')`, with `h'`
the exact opposite of `h`, leaves the heading at `h` for every snake whose
current heading is not `h'`; a snake that is heading `h'` keeps heading `h'`. -/
theorem setDirection_pair (s : Snake) (h : Direction) :
    ((s.setDirection h).setDirection h.opposite).direction =
      (if s.direction = h.opposite then h.opposite else h) := by
  obtain ⟨body, dir, growing⟩ := s
  cases dir <;> cases h <;> simp [Snake.setDirection, Direction.opposite]

/-- C3 fails on the code: after two growing moves to the right, the calls
`setDirection(UP)` and `setDirection(LEFT)` issued between two ticks are both
accepted, so the next `move()` uses Left right after a `move()` that used
Right, and the head runs into the snake's own body. -/
theorem runCalls_reversal :
    runCalls (Snake.new 10 15 Direction.RIGHT) reversalCalls =
        some ({ body := [⟨11, 15⟩, ⟨12, 15⟩, ⟨11, 15⟩], direction := Direction.LEFT,
                growing := false },
              [Direction.RIGHT, Direction.RIGHT, Direction.LEFT]) ∧
      HasReversal [Direction.RIGHT, Direction.RIGHT, Direction.LEFT] ∧
      (Snake.checkSelfCollision
          { body := [⟨11, 15⟩, ⟨12, 15⟩, ⟨11, 15⟩], direction := Direction.LEFT,
            growing := false }).map Prod.fst = some true := by
  refine ⟨by decide, ?_, by decide⟩
  simp [HasReversal, Direction.opposite]

/-- The length of the body and the flag after `move()` on a non-empty body. -/
theorem move_length_of_ne (s : Snake) (hne : s.body ≠ []) :
    ∃ s', s.move = some s' ∧ s'.growing = false ∧
      s'.body.length = if s.growing then s.body.length + 1 else s.body.length := by
  obtain ⟨body, dir, growing⟩ := s
  cases body with
  | nil => exact absurd rfl hne
  | cons front rest =>
    cases growing <;> simp [Snake.move]

/-- C4: on a non-empty body `move()` returns; it leaves the body length
unchanged when no growth is pending and increases it by exactly one when
growth is pending (as after `grow()`); the pending-growth flag is clear
afterwards. -/
theorem move_length (s : Snake) (hne : s.body ≠ []) :
    (∃ s', s.move = some s' ∧ s'.growing = false ∧
      s'.body.length = if s.growing then s.body.length + 1 else s.body.length) ∧
    (∃ s', s.grow.move = some s' ∧ s'.growing = false ∧
      s'.body.length = s.body.length + 1) := by
  refine ⟨move_length_of_ne s hne, ?_⟩
  obtain ⟨s', hm, hg, hl⟩ := move_length_of_ne s.grow hne
  exact ⟨s', hm, hg, by simpa [Snake.grow] using hl⟩

theorem move_length_witness :
    (Snake.new 10 15 Direction.RIGHT).body ≠ [] ∧
    ((∃ s', (Snake.new 10 15 Direction.RIGHT).move = some s' ∧ s'.growing = false ∧
      s'.body.length = if (Snake.new 10 15 Direction.RIGHT).growing
        then (Snake.new 10 15 Direction.RIGHT).body.length + 1
        else (Snake.new 10 15 Direction.RIGHT).body.length) ∧
    (∃ s', (Snake.new 10 15 Direction.RIGHT).grow.move = some s' ∧ s'.growing = false ∧
      s'.body.length = (Snake.new 10 15 Direction.RIGHT).body.length + 1)) :=
  ⟨by decide, move_length (Snake.new 10 15 Direction.RIGHT) (by decide)⟩

/-- The cell computed by lines 27-40 of `move()` from an in-grid cell is the
cell one step along the heading, modulo the grid dimensions. -/
theorem steppedHead_eq_mod (dir : Direction) (front : SDL_Point) (hin : InGrid front) :
    Snake.steppedHead dir front =
      ⟨(front.x + dir.delta.1) % 40, (front.y + dir.delta.2) % 30⟩ := by
  obtain ⟨x, y⟩ := front
  simp only [InGrid] at hin
  cases dir <;>
    simp only [Snake.steppedHead, GRID_WIDTH_eq, GRID_HEIGHT_eq, Direction.delta] <;>
    split_ifs <;> dsimp only at * <;> simp only [SDL_Point.mk.injEq] <;> omega

/-- The cell computed by lines 27-40 of `move()` from an in-grid cell is in
the grid. -/
theorem steppedHead_inGrid (dir : Direction) (front : SDL_Point) (hin : InGrid front) :
    InGrid (Snake.steppedHead dir front) := by
  rw [steppedHead_eq_mod dir front hin]
  simp only [InGrid]
  omega

/-- The result of `move()` on a non-empty body. -/
theorem move_cons (s : Snake) (front : SDL_Point) (rest : List SDL_Point)
    (hbody : s.body = front :: rest) :
    s.move = some { body := Snake.steppedHead s.direction front ::
                      (if s.growing then s.body else s.body.dropLast),
                    direction := s.direction, growing := false } := by
  obtain ⟨body, dir, growing⟩ := s
  simp only at hbody
  subst hbody
  cases growing <;> simp [Snake.move]

/-- C5: wrap invariant.  When every body cell lies in the 40x30 grid, `move()`
returns on a non-empty body and every body cell of the result lies in the
grid; a head at `x = 0` heading Left moves to `x = 39` with `y` unchanged. -/
theorem move_wrap (s : Snake) (hgrid : ∀ p ∈ s.body, InGrid p) :
    (s.body ≠ [] → ∃ s', s.move = some s') ∧
    (∀ s', s.move = some s' → ∀ p ∈ s'.body, InGrid p) ∧
    (∀ s' y rest, s.move = some s' → s.body = ⟨0, y⟩ :: rest →
      s.direction = Direction.LEFT → s'.body.head? = some ⟨39, y⟩) := by
  cases hb : s.body with
  | nil =>
    refine ⟨fun h => absurd rfl h, ?_, ?_⟩
    · intro s' hs'
      simp [Snake.move, hb] at hs'
    · intro s' y rest _ hcons
      cases hcons
  | cons front rest =>
    have hfront : InGrid front := hgrid front (by simp [hb])
    have hmove := move_cons s front rest hb
    refine ⟨fun _ => ⟨_, hmove⟩, ?_, ?_⟩
    · intro s' hs' p hp
      rw [hmove] at hs'
      cases hs'
      simp only [List.mem_cons] at hp
      rcases hp with rfl | hp
      · exact steppedHead_inGrid _ _ hfront
      · split at hp
        · exact hgrid p hp
        · exact hgrid p (List.dropLast_subset _ hp)
    · intro s' y rest' hs' hcons hdir
      rw [hmove] at hs'
      cases hs'
      cases hcons
      rw [steppedHead_eq_mod _ _ hfront, hdir]
      simp only [InGrid] at hfront
      simp only [Direction.delta, List.head?_cons, Option.some.injEq, SDL_Point.mk.injEq]
      omega

theorem move_wrap_witness :
    (∀ p ∈ leftEdgeSnake.body, InGrid p) ∧
    leftEdgeSnake.move =
      some { body := [⟨39, 7⟩, ⟨0, 7⟩, ⟨1, 7⟩], direction := Direction.LEFT,
             growing := false } ∧
    (∀ p ∈ [(⟨39, 7⟩ : SDL_Point), ⟨0, 7⟩, ⟨1, 7⟩], InGrid p) ∧
    [(⟨39, 7⟩ : SDL_Point), ⟨0, 7⟩, ⟨1, 7⟩].head? = some ⟨39, 7⟩ :=
  have h := move_wrap leftEdgeSnake (by decide)
  ⟨by decide, by decide,
   h.2.1 { body := [⟨39, 7⟩, ⟨0, 7⟩, ⟨1, 7⟩], direction := Direction.LEFT, growing := false }
     (by decide),
   h.2.2 { body := [⟨39, 7⟩, ⟨0, 7⟩, ⟨1, 7⟩], direction := Direction.LEFT, growing := false }
     7 [⟨1, 7⟩, ⟨1, 8⟩] (by decide) rfl rfl⟩

/-- C6: on a body with in-grid head `(x, y)`, `move()` yields the new head
`((x + dx) mod 40, (y + dy) mod 30)` followed by the old body, without the old
body's last cell unless growth was pending; the heading is unchanged. -/
theorem move_spec (s : Snake) (x y : Int) (rest : List SDL_Point)
    (hbody : s.body = ⟨x, y⟩ :: rest) (hin : InGrid ⟨x, y⟩) :
    s.move = some { body := ⟨(x + s.direction.delta.1) % 40, (y + s.direction.delta.2) % 30⟩ ::
                      (if s.growing then s.body else s.body.dropLast),
                    direction := s.direction, growing := false } := by
  rw [move_cons s ⟨x, y⟩ rest hbody, steppedHead_eq_mod _ _ hin]

theorem move_spec_witness :
    leftEdgeSnake.body = ⟨0, 7⟩ :: [⟨1, 7⟩, ⟨1, 8⟩] ∧ InGrid ⟨0, 7⟩ ∧
    leftEdgeSnake.move =
      some { body := ⟨(0 + leftEdgeSnake.direction.delta.1) % 40,
                      (7 + leftEdgeSnake.direction.delta.2) % 30⟩ ::
                      (if leftEdgeSnake.growing then leftEdgeSnake.body
                        else leftEdgeSnake.body.dropLast),
                    direction := leftEdgeSnake.direction, growing := false } :=
  ⟨rfl, by decide, move_spec leftEdgeSnake 0 7 [⟨1, 7⟩, ⟨1, 8⟩] rfl (by decide)⟩

/-- The loop of `checkSelfCollision()` finds a match exactly when some cell of
the list has both coordinates equal to the head's. -/
theorem checkSelfCollisionLoop_iff (head : SDL_Point) (rest : List SDL_Point) :
    Snake.checkSelfCollisionLoop head rest = true ↔
      ∃ c ∈ rest, c.x = head.x ∧ c.y = head.y := by
  induction rest with
  | nil => simp [Snake.checkSelfCollisionLoop]
  | cons it rest ih =>
    simp only [Snake.checkSelfCollisionLoop, List.mem_cons, exists_eq_or_imp]
    split_ifs with h
    · simp [h.1, h.2]
    · rw [ih]
      constructor
      · intro hx
        exact Or.inr hx
      · rintro (⟨hx, hy⟩ | hx)
        · exact absurd ⟨hx.symm, hy.symm⟩ h
        · exact hx

/-- C7: on a non-empty body `checkSelfCollision()` returns true if and only if
some body cell at index `≥ 1` has both coordinates equal to the head's; the
snake is not modified; the result is false for every freshly constructed
snake. -/
theorem checkSelfCollision_spec (s : Snake) (head : SDL_Point) (rest : List SDL_Point)
    (hbody : s.body = head :: rest) :
    (∃ b, s.checkSelfCollision = some (b, s) ∧
      (b = true ↔ ∃ i c, 1 ≤ i ∧ s.body[i]? = some c ∧ c.x = head.x ∧ c.y = head.y)) ∧
    (∀ startX startY startDirection,
      (Snake.new startX startY startDirection).checkSelfCollision =
        some (false, Snake.new startX startY startDirection)) := by
  refine ⟨⟨Snake.checkSelfCollisionLoop head rest, ?_, ?_⟩, ?_⟩
  · simp [Snake.checkSelfCollision, hbody]
  · rw [checkSelfCollisionLoop_iff, hbody]
    constructor
    · rintro ⟨c, hc, hxy⟩
      obtain ⟨n, hn⟩ := List.getElem?_of_mem hc
      exact ⟨n + 1, c, by omega, by simpa using hn, hxy⟩
    · rintro ⟨i, c, hi, hget, hxy⟩
      obtain ⟨n, rfl⟩ : ∃ n, i = n + 1 := ⟨i - 1, by omega⟩
      simp only [List.getElem?_cons_succ] at hget
      exact ⟨c, List.getElem?_mem hget, hxy⟩
  · intro startX startY startDirection
    simp [Snake.checkSelfCollision, Snake.new, Snake.checkSelfCollisionLoop]

theorem checkSelfCollision_spec_witness :
    coiledSnake.body = ⟨5, 5⟩ :: [⟨5, 6⟩, ⟨6, 6⟩, ⟨5, 5⟩] ∧
    (∃ b, coiledSnake.checkSelfCollision = some (b, coiledSnake) ∧
      (b = true ↔ ∃ i c, 1 ≤ i ∧ coiledSnake.body[i]? = some c ∧
        c.x = (⟨5, 5⟩ : SDL_Point).x ∧ c.y = (⟨5, 5⟩ : SDL_Point).y)) ∧
    (∀ startX startY startDirection,
      (Snake.new startX startY startDirection).checkSelfCollision =
        some (false, Snake.new startX startY startDirection)) :=
  ⟨rfl, checkSelfCollision_spec coiledSnake ⟨5, 5⟩ [⟨5, 6⟩, ⟨6, 6⟩, ⟨5, 5⟩] rfl⟩

/-! ### Food placement -/

theorem onBody_iff (p : SDL_Point) (body : List SDL_Point) :
    onBody p body = true ↔ p ∈ body := by
  obtain ⟨x, y⟩ := p
  simp only [onBody, List.any_eq_true, decide_eq_true_eq]
  constructor
  · rintro ⟨⟨x', y'⟩, hmem, hx, hy⟩
    simp only at hx hy
    subst hx hy
    exact hmem
  · intro h
    exact ⟨_, h, rfl, rfl⟩

theorem drawCell_inGrid (r : Nat → Nat) (i : Nat) : InGrid (drawCell r i) := by
  simp only [InGrid, drawCell]
  omega

/-- One iteration of the loop of `placeFood()`. -/
theorem placeFood_succ (r : Nat → Nat) (fuel : Nat) (g : Game) :
    placeFood r (fuel + 1) g =
      if OffSnakes g (drawCell r g.randCalls) then
        some { g with food := drawCell r g.randCalls, randCalls := g.randCalls + 2 }
      else
        placeFood r fuel { g with food := drawCell r g.randCalls, randCalls := g.randCalls + 2 } := by
  simp only [placeFood, GRID_WIDTH_eq, GRID_HEIGHT_eq, OffSnakes, drawCell]
  by_cases h1 : (⟨(r g.randCalls : Int) % 40, (r (g.randCalls + 1) : Int) % 30⟩ : SDL_Point) ∈
      g.snake1.body <;>
  by_cases h2 : (⟨(r g.randCalls : Int) % 40, (r (g.randCalls + 1) : Int) % 30⟩ : SDL_Point) ∈
      g.snake2.body <;>
  simp [h1, h2, onBody_iff]

/-- The loop of `placeFood()` returns once its fuel exceeds the index of the
first free cell of the stream. -/
theorem placeFood_of_firstFree (r : Nat → Nat) :
    ∀ (k fuel : Nat) (g : Game), FirstFree r g k → k < fuel →
      placeFood r fuel g =
        some { g with food := drawCell r (g.randCalls + 2 * k),
                      randCalls := g.randCalls + 2 * k + 2 } := by
  intro k
  induction k with
  | zero =>
    intro fuel g hfree hlt
    obtain ⟨f, rfl⟩ : ∃ f, fuel = f + 1 := ⟨fuel - 1, by omega⟩
    have h0 : OffSnakes g (drawCell r g.randCalls) := by simpa using hfree.1
    rw [placeFood_succ, if_pos h0]
    simp
  | succ k ih =>
    intro fuel g hfree hlt
    obtain ⟨f, rfl⟩ : ∃ f, fuel = f + 1 := ⟨fuel - 1, by omega⟩
    have h0 : ¬ OffSnakes g (drawCell r g.randCalls) := by
      simpa using hfree.2 0 (by omega)
    rw [placeFood_succ, if_neg h0]
    have e : ∀ j, g.randCalls + 2 + 2 * j = g.randCalls + 2 * (j + 1) := fun j => by omega
    have hfree' : FirstFree r
        { g with food := drawCell r g.randCalls, randCalls := g.randCalls + 2 } k := by
      refine ⟨?_, ?_⟩
      · have := hfree.1
        simp only [OffSnakes, e] at this ⊢
        exact this
      · intro j hj
        have := hfree.2 (j + 1) (by omega)
        simp only [OffSnakes, e] at this ⊢
        exact this
    rw [ih f _ hfree' (by omega)]
    simp only [e]

/-- When the loop of `placeFood()` returns, it returns the first free cell of
the stream, having consumed the draws up to it. -/
theorem placeFood_some (r : Nat → Nat) :
    ∀ (fuel : Nat) (g g' : Game), placeFood r fuel g = some g' →
      ∃ k, k < fuel ∧ FirstFree r g k ∧
        g' = { g with food := drawCell r (g.randCalls + 2 * k),
                      randCalls := g.randCalls + 2 * k + 2 } := by
  intro fuel
  induction fuel with
  | zero =>
    intro g g' h
    simp [placeFood] at h
  | succ f ih =>
    intro g g' h
    rw [placeFood_succ] at h
    by_cases h0 : OffSnakes g (drawCell r g.randCalls)
    · rw [if_pos h0] at h
      refine ⟨0, by omega, ⟨by simpa using h0, fun j hj => absurd hj (by omega)⟩, ?_⟩
      simpa using h.symm
    · rw [if_neg h0] at h
      obtain ⟨k, hk, hfree, hg'⟩ := ih _ _ h
      have e : ∀ j, g.randCalls + 2 + 2 * j = g.randCalls + 2 * (j + 1) := fun j => by omega
      refine ⟨k + 1, by omega, ⟨?_, ?_⟩, ?_⟩
      · have := hfree.1
        simp only [OffSnakes, e] at this ⊢
        exact this
      · intro j hj
        cases j with
        | zero => simpa using h0
        | succ j =>
          have := hfree.2 j (by omega)
          simp only [OffSnakes, e] at this ⊢
          exact this
      · rw [hg']
        simp only [e]

/-- One iteration of the loop of `placeBonusFood()`. -/
theorem placeBonusFood_succ (r : Nat → Nat) (fuel : Nat) (g : Game) :
    placeBonusFood r (fuel + 1) g =
      if OffSnakes g (drawCell r g.randCalls) then
        some { g with bonusFood := drawCell r g.randCalls, randCalls := g.randCalls + 2 }
      else
        placeBonusFood r fuel { g with bonusFood := drawCell r g.randCalls, randCalls := g.randCalls + 2 } := by
  simp only [placeBonusFood, GRID_WIDTH_eq, GRID_HEIGHT_eq, OffSnakes, drawCell]
  by_cases h1 : (⟨(r g.randCalls : Int) % 40, (r (g.randCalls + 1) : Int) % 30⟩ : SDL_Point) ∈
      g.snake1.body <;>
  by_cases h2 : (⟨(r g.randCalls : Int) % 40, (r (g.randCalls + 1) : Int) % 30⟩ : SDL_Point) ∈
      g.snake2.body <;>
  simp [h1, h2, onBody_iff]

/-- The loop of `placeBonusFood()` returns once its fuel exceeds the index of the
first free cell of the stream. -/
theorem placeBonusFood_of_firstFree (r : Nat → Nat) :
    ∀ (k fuel : Nat) (g : Game), FirstFree r g k → k < fuel →
      placeBonusFood r fuel g =
        some { g with bonusFood := drawCell r (g.randCalls + 2 * k),
                      randCalls := g.randCalls + 2 * k + 2 } := by
  intro k
  induction k with
  | zero =>
    intro fuel g hfree hlt
    obtain ⟨f, rfl⟩ : ∃ f, fuel = f + 1 := ⟨fuel - 1, by omega⟩
    have h0 : OffSnakes g (drawCell r g.randCalls) := by simpa using hfree.1
    rw [placeBonusFood_succ, if_pos h0]
    simp
  | succ k ih =>
    intro fuel g hfree hlt
    obtain ⟨f, rfl⟩ : ∃ f, fuel = f + 1 := ⟨fuel - 1, by omega⟩
    have h0 : ¬ OffSnakes g (drawCell r g.randCalls) := by
      simpa using hfree.2 0 (by omega)
    rw [placeBonusFood_succ, if_neg h0]
    have e : ∀ j, g.randCalls + 2 + 2 * j = g.randCalls + 2 * (j + 1) := fun j => by omega
    have hfree' : FirstFree r
        { g with bonusFood := drawCell r g.randCalls, randCalls := g.randCalls + 2 } k := by
      refine ⟨?_, ?_⟩
      · have := hfree.1
        simp only [OffSnakes, e] at this ⊢
        exact this
      · intro j hj
        have := hfree.2 (j + 1) (by omega)
        simp only [OffSnakes, e] at this ⊢
        exact this
    rw [ih f _ hfree' (by omega)]
    simp only [e]

/-- When the loop of `placeBonusFood()` returns, it returns the first free cell of
the stream, having consumed the draws up to it. -/
theorem placeBonusFood_some (r : Nat → Nat) :
    ∀ (fuel : Nat) (g g' : Game), placeBonusFood r fuel g = some g' →
      ∃ k, k < fuel ∧ FirstFree r g k ∧
        g' = { g with bonusFood := drawCell r (g.randCalls + 2 * k),
                      randCalls := g.randCalls + 2 * k + 2 } := by
  intro fuel
  induction fuel with
  | zero =>
    intro g g' h
    simp [placeBonusFood] at h
  | succ f ih =>
    intro g g' h
    rw [placeBonusFood_succ] at h
    by_cases h0 : OffSnakes g (drawCell r g.randCalls)
    · rw [if_pos h0] at h
      refine ⟨0, by omega, ⟨by simpa using h0, fun j hj => absurd hj (by omega)⟩, ?_⟩
      simpa using h.symm
    · rw [if_neg h0] at h
      obtain ⟨k, hk, hfree, hg'⟩ := ih _ _ h
      have e : ∀ j, g.randCalls + 2 + 2 * j = g.randCalls + 2 * (j + 1) := fun j => by omega
      refine ⟨k + 1, by omega, ⟨?_, ?_⟩, ?_⟩
      · have := hfree.1
        simp only [OffSnakes, e] at this ⊢
        exact this
      · intro j hj
        cases j with
        | zero => simpa using h0
        | succ j =>
          have := hfree.2 j (by omega)
          simp only [OffSnakes, e] at this ⊢
          exact this
      · rw [hg']
        simp only [e]

/-- C8: whenever `placeFood()` (respectively `placeBonusFood()`) returns, the
food (respectively bonus food) cell is the first drawn cell that is off both
snakes, it lies in the grid, and both snakes, both scores, the timer and the
other food item are unchanged; the call returns as soon as the fuel exceeds the
index of the first free cell of the stream. -/
theorem placement_spec (r : Nat → Nat) (g : Game) :
    (∀ fuel g', placeFood r fuel g = some g' →
      ∃ k, FirstFree r g k ∧ g'.food = drawCell r (g.randCalls + 2 * k) ∧
        InGrid g'.food ∧ OffSnakes g g'.food ∧
        g'.snake1 = g.snake1 ∧ g'.snake2 = g.snake2 ∧
        g'.score1 = g.score1 ∧ g'.score2 = g.score2 ∧
        g'.bonusFoodTimer = g.bonusFoodTimer ∧ g'.bonusFood = g.bonusFood ∧
        g'.screen = g.screen) ∧
    (∀ fuel g', placeBonusFood r fuel g = some g' →
      ∃ k, FirstFree r g k ∧ g'.bonusFood = drawCell r (g.randCalls + 2 * k) ∧
        InGrid g'.bonusFood ∧ OffSnakes g g'.bonusFood ∧
        g'.snake1 = g.snake1 ∧ g'.snake2 = g.snake2 ∧
        g'.score1 = g.score1 ∧ g'.score2 = g.score2 ∧
        g'.bonusFoodTimer = g.bonusFoodTimer ∧ g'.food = g.food ∧
        g'.screen = g.screen) ∧
    (∀ k fuel, FirstFree r g k → k < fuel →
      (∃ g', placeFood r fuel g = some g') ∧ (∃ g', placeBonusFood r fuel g = some g')) := by
  refine ⟨?_, ?_, ?_⟩
  · intro fuel g' h
    obtain ⟨k, _, hfree, rfl⟩ := placeFood_some r fuel g g' h
    exact ⟨k, hfree, rfl, drawCell_inGrid _ _, hfree.1, rfl, rfl, rfl, rfl, rfl, rfl, rfl⟩
  · intro fuel g' h
    obtain ⟨k, _, hfree, rfl⟩ := placeBonusFood_some r fuel g g' h
    exact ⟨k, hfree, rfl, drawCell_inGrid _ _, hfree.1, rfl, rfl, rfl, rfl, rfl, rfl, rfl⟩
  · intro k fuel hfree hlt
    exact ⟨⟨_, placeFood_of_firstFree r k fuel g hfree hlt⟩,
      ⟨_, placeBonusFood_of_firstFree r k fuel g hfree hlt⟩⟩

theorem placement_spec_witness :
    placeFood sampleDraws 5 sampleGame =
        some { sampleGame with food := ⟨3, 4⟩, randCalls := 6 } ∧
    placeBonusFood sampleDraws 5 sampleGame =
        some { sampleGame with bonusFood := ⟨3, 4⟩, randCalls := 6 } ∧
    (∃ k, FirstFree sampleDraws sampleGame k ∧
      (⟨3, 4⟩ : SDL_Point) = drawCell sampleDraws (sampleGame.randCalls + 2 * k)) ∧
    (∃ k, FirstFree sampleDraws sampleGame k ∧
      (⟨3, 4⟩ : SDL_Point) = drawCell sampleDraws (sampleGame.randCalls + 2 * k)) ∧
    FirstFree sampleDraws sampleGame 2 ∧
    (∃ g', placeFood sampleDraws 3 sampleGame = some g') ∧
    (∃ g', placeBonusFood sampleDraws 3 sampleGame = some g') :=
  have h := placement_spec sampleDraws sampleGame
  have hfree : FirstFree sampleDraws sampleGame 2 := by
    unfold FirstFree
    decide
  ⟨by decide, by decide,
   let ⟨k, hk, hcell, _⟩ := h.1 5 { sampleGame with food := ⟨3, 4⟩, randCalls := 6 } (by decide)
   ⟨k, hk, hcell⟩,
   let ⟨k, hk, hcell, _⟩ :=
     h.2.1 5 { sampleGame with bonusFood := ⟨3, 4⟩, randCalls := 6 } (by decide)
   ⟨k, hk, hcell⟩,
   hfree, (h.2.2 2 3 hfree (by decide)).1, (h.2.2 2 3 hfree (by decide)).2⟩

/-! ### Termination of the placement loops on fair streams -/

theorem fair_add (r : Nat → Nat) (p m : Nat) (h : Fair r p) : Fair r (p + 2 * m) := by
  intro j c hc
  obtain ⟨k, hk⟩ := h (m + j) c hc
  refine ⟨k, ?_⟩
  rw [← hk]
  congr 1
  omega

theorem fair_cycleDraws : Fair cycleDraws 0 := by
  intro j c hc
  obtain ⟨x, y⟩ := c
  simp only [InGrid] at hc
  obtain ⟨a, rfl⟩ : ∃ a : Nat, x = a := ⟨x.toNat, by omega⟩
  obtain ⟨b, rfl⟩ : ∃ b : Nat, y = b := ⟨y.toNat, by omega⟩
  refine ⟨(30 * a + b + 1200 - j % 1200) % 1200, ?_⟩
  have h0 : (0 + 2 * (j + (30 * a + b + 1200 - j % 1200) % 1200)) % 2 = 0 := by omega
  have h1 : (0 + 2 * (j + (30 * a + b + 1200 - j % 1200) % 1200) + 1) % 2 = 1 := by omega
  simp only [drawCell, cycleDraws, h0, h1, if_true, SDL_Point.mk.injEq]
  constructor <;> simp <;> omega

theorem exists_firstFree (r : Nat → Nat) (g : Game)
    (h : ∃ k, OffSnakes g (drawCell r (g.randCalls + 2 * k))) : ∃ k, FirstFree r g k :=
  ⟨Nat.find h, Nat.find_spec h, fun _ hj => Nat.find_min h hj⟩

theorem Settles.of_eq (f : Nat → Option Game) (g' : Game) (h : ∀ fuel, f fuel = some g') :
    Settles f g' :=
  ⟨0, fun fuel _ => h fuel⟩

theorem Settles.bind (f : Nat → Option Game) (h : Nat → Game → Option Game) (a b : Game)
    (hf : Settles f a) (hh : Settles (fun fuel => h fuel a) b) :
    Settles (fun fuel => (f fuel).bind (h fuel)) b := by
  obtain ⟨N, hN⟩ := hf
  obtain ⟨M, hM⟩ := hh
  refine ⟨max N M, fun fuel hfuel => ?_⟩
  show (f fuel).bind (h fuel) = some b
  rw [hN fuel (le_trans (le_max_left N M) hfuel)]
  exact hM fuel (le_trans (le_max_right N M) hfuel)

/-- On a fair stream, with a grid cell off both bodies, `placeFood()` returns
for every sufficiently large fuel and leaves the bodies as they are. -/
theorem placeFood_settles (r : Nat → Nat) (b1 b2 : List SDL_Point)
    (hfree : ∃ c, InGrid c ∧ c ∉ b1 ∧ c ∉ b2) (g : Game) (hst : Stable r b1 b2 g) :
    ∃ g', Settles (fun fuel => placeFood r fuel g) g' ∧ Stable r b1 b2 g' := by
  obtain ⟨hfair, hb1, hb2⟩ := hst
  obtain ⟨c, hc, hc1, hc2⟩ := hfree
  obtain ⟨k, hk⟩ := hfair 0 c hc
  have hoff : ∃ k, OffSnakes g (drawCell r (g.randCalls + 2 * k)) := by
    refine ⟨k, ?_⟩
    rw [Nat.zero_add] at hk
    rw [hk]
    exact ⟨by rw [hb1]; exact hc1, by rw [hb2]; exact hc2⟩
  obtain ⟨k0, hk0⟩ := exists_firstFree r g hoff
  refine ⟨_, ⟨k0 + 1, fun fuel hfuel => placeFood_of_firstFree r k0 fuel g hk0 (by omega)⟩,
    ?_, hb1, hb2⟩
  have := fair_add r g.randCalls (k0 + 1) hfair
  have e : g.randCalls + 2 * (k0 + 1) = g.randCalls + 2 * k0 + 2 := by omega
  rw [e] at this
  exact this

/-- On a fair stream, with a grid cell off both bodies, `placeBonusFood()`
returns for every sufficiently large fuel and leaves the bodies as they are. -/
theorem placeBonusFood_settles (r : Nat → Nat) (b1 b2 : List SDL_Point)
    (hfree : ∃ c, InGrid c ∧ c ∉ b1 ∧ c ∉ b2) (g : Game) (hst : Stable r b1 b2 g) :
    ∃ g', Settles (fun fuel => placeBonusFood r fuel g) g' ∧ Stable r b1 b2 g' := by
  obtain ⟨hfair, hb1, hb2⟩ := hst
  obtain ⟨c, hc, hc1, hc2⟩ := hfree
  obtain ⟨k, hk⟩ := hfair 0 c hc
  have hoff : ∃ k, OffSnakes g (drawCell r (g.randCalls + 2 * k)) := by
    refine ⟨k, ?_⟩
    rw [Nat.zero_add] at hk
    rw [hk]
    exact ⟨by rw [hb1]; exact hc1, by rw [hb2]; exact hc2⟩
  obtain ⟨k0, hk0⟩ := exists_firstFree r g hoff
  refine ⟨_, ⟨k0 + 1, fun fuel hfuel => placeBonusFood_of_firstFree r k0 fuel g hk0 (by omega)⟩,
    ?_, hb1, hb2⟩
  have := fair_add r g.randCalls (k0 + 1) hfair
  have e : g.randCalls + 2 * (k0 + 1) = g.randCalls + 2 * k0 + 2 := by omega
  rw [e] at this
  exact this

theorem checkFoodCollision_settles (r : Nat → Nat) (b1 b2 : List SDL_Point)
    (hfree : ∃ c, InGrid c ∧ c ∉ b1 ∧ c ∉ b2) (hne1 : b1 ≠ []) (hne2 : b2 ≠ [])
    (p : Player) (g : Game) (hst : Stable r b1 b2 g) :
    ∃ g', Settles (fun fuel => checkFoodCollision r fuel p g) g' ∧ Stable r b1 b2 g' := by
  obtain ⟨hfair, hb1, hb2⟩ := hst
  cases p with
  | one =>
    cases hb : g.snake1.body with
    | nil => exact absurd (hb1.symm.trans hb) hne1
    | cons head rest =>
      simp only [checkFoodCollision, hb]
      split_ifs with hhit
      · exact placeFood_settles r b1 b2 hfree _ ⟨hfair, hb1, hb2⟩
      · exact ⟨g, Settles.of_eq _ _ (fun _ => rfl), hfair, hb1, hb2⟩
  | two =>
    cases hb : g.snake2.body with
    | nil => exact absurd (hb2.symm.trans hb) hne2
    | cons head rest =>
      simp only [checkFoodCollision, hb]
      split_ifs with hhit
      · exact placeFood_settles r b1 b2 hfree _ ⟨hfair, hb1, hb2⟩
      · exact ⟨g, Settles.of_eq _ _ (fun _ => rfl), hfair, hb1, hb2⟩

theorem bonusCheck1_settles (r : Nat → Nat) (b1 b2 : List SDL_Point)
    (hfree : ∃ c, InGrid c ∧ c ∉ b1 ∧ c ∉ b2) (head1 : SDL_Point)
    (g : Game) (hst : Stable r b1 b2 g) :
    ∃ g', Settles (fun fuel => bonusCheck1 r fuel head1 g) g' ∧ Stable r b1 b2 g' := by
  obtain ⟨hfair, hb1, hb2⟩ := hst
  simp only [bonusCheck1]
  split_ifs with hhit
  · exact placeBonusFood_settles r b1 b2 hfree _ ⟨hfair, hb1, hb2⟩
  · exact ⟨g, Settles.of_eq _ _ (fun _ => rfl), hfair, hb1, hb2⟩

theorem bonusCheck2_settles (r : Nat → Nat) (b1 b2 : List SDL_Point)
    (hfree : ∃ c, InGrid c ∧ c ∉ b1 ∧ c ∉ b2) (head2 : SDL_Point)
    (g : Game) (hst : Stable r b1 b2 g) :
    ∃ g', Settles (fun fuel => bonusCheck2 r fuel head2 g) g' ∧ Stable r b1 b2 g' := by
  obtain ⟨hfair, hb1, hb2⟩ := hst
  simp only [bonusCheck2]
  split_ifs with hhit
  · exact placeBonusFood_settles r b1 b2 hfree _ ⟨hfair, hb1, hb2⟩
  · exact ⟨g, Settles.of_eq _ _ (fun _ => rfl), hfair, hb1, hb2⟩

/-- The grid has a cell off the two start cells of the snakes. -/
theorem start_cells_free :
    ∃ c, InGrid c ∧ c ∉ (Snake.new (GRID_WIDTH / 4) (GRID_HEIGHT / 2) Direction.RIGHT).body ∧
      c ∉ (Snake.new (3 * GRID_WIDTH / 4) (GRID_HEIGHT / 2) Direction.LEFT).body :=
  ⟨⟨0, 0⟩, by decide, by decide, by decide⟩

/-- On a fair stream `resetGame` returns for every sufficiently large fuel. -/
theorem resetGame_settles (r : Nat → Nat) (message : String) (g : Game)
    (hfair : Fair r g.randCalls) :
    ∃ g', Settles (fun fuel => resetGame r fuel message g) g' := by
  simp only [resetGame]
  obtain ⟨ga, hsa, hsta⟩ := placeFood_settles r _ _ start_cells_free
    { renderMessage message g with
      snake1 := Snake.new (GRID_WIDTH / 4) (GRID_HEIGHT / 2) Direction.RIGHT
      snake2 := Snake.new (3 * GRID_WIDTH / 4) (GRID_HEIGHT / 2) Direction.LEFT
      score1 := 0
      score2 := 0 } ⟨hfair, rfl, rfl⟩
  obtain ⟨gb, hsb, _⟩ := placeBonusFood_settles r _ _ start_cells_free ga hsta
  exact ⟨gb, Settles.bind _ (fun fuel g => placeBonusFood r fuel g) ga gb hsa hsb⟩

theorem collisionsAndTimer_settles (r : Nat → Nat) (b1 b2 : List SDL_Point)
    (hfree : ∃ c, InGrid c ∧ c ∉ b1 ∧ c ∉ b2) (hne1 : b1 ≠ []) (hne2 : b2 ≠ [])
    (head1 head2 : SDL_Point) (g : Game) (hst : Stable r b1 b2 g) :
    ∃ g', Settles (fun fuel => collisionsAndTimer r fuel head1 head2 g) g' := by
  obtain ⟨hfair, hb1, hb2⟩ := hst
  cases hc1 : g.snake1.body with
  | nil => exact absurd (hb1.symm.trans hc1) hne1
  | cons h1 t1 =>
    cases hc2 : g.snake2.body with
    | nil => exact absurd (hb2.symm.trans hc2) hne2
    | cons h2 t2 =>
      simp only [collisionsAndTimer, Snake.checkSelfCollision, hc1, hc2, Option.bind]
      split_ifs with hs1 hs2 hx2 hx1 htimer
      · exact resetGame_settles r _ _ hfair
      · exact resetGame_settles r _ _ hfair
      · exact resetGame_settles r _ _ hfair
      · exact resetGame_settles r _ _ hfair
      · obtain ⟨ga, hsa, _⟩ := placeBonusFood_settles r b1 b2 hfree
          { g with bonusFoodTimer := g.bonusFoodTimer + 1 } ⟨hfair, hb1, hb2⟩
        exact ⟨_, Settles.bind _ (fun _ g => some { g with bonusFoodTimer := 0 }) ga _ hsa
          (Settles.of_eq _ _ (fun _ => rfl))⟩
      · exact ⟨_, Settles.of_eq _ _ (fun _ => rfl)⟩

/-- The body of a moved snake is non-empty. -/
theorem move_body_cons (s s' : Snake) (h : s.move = some s') :
    ∃ head rest, s'.body = head :: rest := by
  cases hb : s.body with
  | nil => simp [Snake.move, hb] at h
  | cons front rest =>
    rw [move_cons s front rest hb] at h
    cases h
    exact ⟨_, _, rfl⟩

/-- On a fair stream, when both snakes can move and some grid cell is off both
moved bodies, `update()` returns for every sufficiently large fuel. -/
theorem update_settles (r : Nat → Nat) (g : Game) (s1 s2 : Snake)
    (h1 : g.snake1.move = some s1) (h2 : g.snake2.move = some s2)
    (hfair : Fair r g.randCalls)
    (hfree : ∃ c, InGrid c ∧ c ∉ s1.body ∧ c ∉ s2.body) :
    ∃ g', Settles (fun fuel => update r fuel g) g' := by
  obtain ⟨hd1, t1, hs1⟩ := move_body_cons _ _ h1
  obtain ⟨hd2, t2, hs2⟩ := move_body_cons _ _ h2
  have hne1 : s1.body ≠ [] := by rw [hs1]; exact List.cons_ne_nil _ _
  have hne2 : s2.body ≠ [] := by rw [hs2]; exact List.cons_ne_nil _ _
  obtain ⟨ga, hsa, hsta⟩ := checkFoodCollision_settles r s1.body s2.body hfree hne1 hne2
    Player.one { g with snake1 := s1, snake2 := s2 } ⟨hfair, rfl, rfl⟩
  obtain ⟨gb, hsb, hstb⟩ := checkFoodCollision_settles r s1.body s2.body hfree hne1 hne2
    Player.two ga hsta
  obtain ⟨gc, hsc, hstc⟩ := bonusCheck1_settles r s1.body s2.body hfree hd1 gb hstb
  obtain ⟨gd, hsd, hstd⟩ := bonusCheck2_settles r s1.body s2.body hfree hd2 gc hstc
  obtain ⟨ge, hse⟩ := collisionsAndTimer_settles r s1.body s2.body hfree hne1 hne2
    hd1 hd2 gd hstd
  refine ⟨ge, ?_⟩
  simp only [update, h1, h2, Option.some_bind]
  apply Settles.bind _ _ ga ge hsa
  apply Settles.bind _ _ gb ge hsb
  simp only [hstb.2.1, hstb.2.2, hs1, hs2, List.head?_cons, Option.some_bind]
  apply Settles.bind _ _ gc ge hsc
  apply Settles.bind _ _ gd ge hsd
  exact hse

/-! ### What one tick does -/

theorem point_eq_iff (p q : SDL_Point) : (p.x = q.x ∧ p.y = q.y) ↔ p = q := by
  obtain ⟨x, y⟩ := p
  obtain ⟨x', y'⟩ := q
  simp

/-- A returned `placeFood()` has put the food on a cell off both snakes and
has otherwise only advanced the stream. -/
theorem placeFood_result (r : Nat → Nat) (fuel : Nat) (g g' : Game)
    (h : placeFood r fuel g = some g') :
    ∃ c n, OffSnakes g c ∧ g' = { g with food := c, randCalls := n } := by
  obtain ⟨k, _, hfree, rfl⟩ := placeFood_some r fuel g g' h
  exact ⟨_, _, hfree.1, rfl⟩

/-- A returned `placeBonusFood()` has put the bonus food on a cell off both
snakes and has otherwise only advanced the stream. -/
theorem placeBonusFood_result (r : Nat → Nat) (fuel : Nat) (g g' : Game)
    (h : placeBonusFood r fuel g = some g') :
    ∃ c n, OffSnakes g c ∧ g' = { g with bonusFood := c, randCalls := n } := by
  obtain ⟨k, _, hfree, rfl⟩ := placeBonusFood_some r fuel g g' h
  exact ⟨_, _, hfree.1, rfl⟩

/-- The state that a returned `resetGame` leaves. -/
theorem resetGame_result (r : Nat → Nat) (fuel : Nat) (message : String) (g g' : Game)
    (h : resetGame r fuel message g = some g') :
    ∃ c c' n,
      g' = { snake1 := Snake.new 10 15 Direction.RIGHT
             snake2 := Snake.new 30 15 Direction.LEFT
             food := c
             bonusFood := c'
             score1 := 0
             score2 := 0
             bonusFoodTimer := g.bonusFoodTimer
             randCalls := n
             screen := g.screen ++ [message] } ∧
      OffSnakes g' c ∧ OffSnakes g' c' := by
  simp only [resetGame, Option.bind_eq_some] at h
  obtain ⟨ga, hga, hgb⟩ := h
  obtain ⟨c, n, hc, rfl⟩ := placeFood_result r fuel _ ga hga
  obtain ⟨c', n', hc', rfl⟩ := placeBonusFood_result r fuel _ g' hgb
  refine ⟨c, c', n', ?_, hc, hc'⟩
  simp only [renderMessage, Game.mk.injEq, and_true, true_and]
  exact ⟨by decide, by decide⟩

/-- The two outcomes of a returned `checkFoodCollision(snake1, score1)`. -/
theorem checkFoodCollision_one_result (r : Nat → Nat) (fuel : Nat) (g g' : Game)
    (h : checkFoodCollision r fuel Player.one g = some g') :
    ∃ head rest, g.snake1.body = head :: rest ∧
      ((head = g.food ∧ ∃ c n, OffSnakes g c ∧
          g' = { g with snake1 := g.snake1.grow, score1 := g.score1 + 1,
                        food := c, randCalls := n }) ∨
       (head ≠ g.food ∧ g' = g)) := by
  cases hb : g.snake1.body with
  | nil => simp [checkFoodCollision, hb] at h
  | cons head rest =>
    refine ⟨head, rest, rfl, ?_⟩
    simp only [checkFoodCollision, hb, point_eq_iff] at h
    split_ifs at h with hhit
    · obtain ⟨c, n, hc, rfl⟩ := placeFood_result r fuel _ g' h
      exact Or.inl ⟨hhit, c, n, hc, rfl⟩
    · exact Or.inr ⟨hhit, by simpa using h.symm⟩

/-- The two outcomes of a returned `checkFoodCollision(snake2, score2)`. -/
theorem checkFoodCollision_two_result (r : Nat → Nat) (fuel : Nat) (g g' : Game)
    (h : checkFoodCollision r fuel Player.two g = some g') :
    ∃ head rest, g.snake2.body = head :: rest ∧
      ((head = g.food ∧ ∃ c n, OffSnakes g c ∧
          g' = { g with snake2 := g.snake2.grow, score2 := g.score2 + 1,
                        food := c, randCalls := n }) ∨
       (head ≠ g.food ∧ g' = g)) := by
  cases hb : g.snake2.body with
  | nil => simp [checkFoodCollision, hb] at h
  | cons head rest =>
    refine ⟨head, rest, rfl, ?_⟩
    simp only [checkFoodCollision, hb, point_eq_iff] at h
    split_ifs at h with hhit
    · obtain ⟨c, n, hc, rfl⟩ := placeFood_result r fuel _ g' h
      exact Or.inl ⟨hhit, c, n, hc, rfl⟩
    · exact Or.inr ⟨hhit, by simpa using h.symm⟩

/-- The two outcomes of the returned bonus-food test of snake 1. -/
theorem bonusCheck1_result (r : Nat → Nat) (fuel : Nat) (head1 : SDL_Point) (g g' : Game)
    (h : bonusCheck1 r fuel head1 g = some g') :
    (head1 = g.bonusFood ∧ ∃ c n, OffSnakes g c ∧
        g' = { g with snake1 := g.snake1.grow, score1 := g.score1 + 2,
                      bonusFood := c, randCalls := n }) ∨
    (head1 ≠ g.bonusFood ∧ g' = g) := by
  simp only [bonusCheck1, point_eq_iff] at h
  split_ifs at h with hhit
  · obtain ⟨c, n, hc, rfl⟩ := placeBonusFood_result r fuel _ g' h
    exact Or.inl ⟨hhit, c, n, hc, rfl⟩
  · exact Or.inr ⟨hhit, by simpa using h.symm⟩

/-- The two outcomes of the returned bonus-food test of snake 2. -/
theorem bonusCheck2_result (r : Nat → Nat) (fuel : Nat) (head2 : SDL_Point) (g g' : Game)
    (h : bonusCheck2 r fuel head2 g = some g') :
    (head2 = g.bonusFood ∧ ∃ c n, OffSnakes g c ∧
        g' = { g with snake2 := g.snake2.grow, score2 := g.score2 + 2,
                      bonusFood := c, randCalls := n }) ∨
    (head2 ≠ g.bonusFood ∧ g' = g) := by
  simp only [bonusCheck2, point_eq_iff] at h
  split_ifs at h with hhit
  · obtain ⟨c, n, hc, rfl⟩ := placeBonusFood_result r fuel _ g' h
    exact Or.inl ⟨hhit, c, n, hc, rfl⟩
  · exact Or.inr ⟨hhit, by simpa using h.symm⟩

/-- The outcomes of the returned last part of a tick: a round reset, or no
reset and the timer step, which either counts or relocates the bonus food. -/
theorem collisionsAndTimer_result (r : Nat → Nat) (fuel : Nat) (head1 head2 : SDL_Point)
    (g g' : Game) (h : collisionsAndTimer r fuel head1 head2 g = some g') :
    (∃ message, resetGame r fuel message g = some g') ∨
    (g.bonusFoodTimer + 1 ≤ 1000 ∧ g' = { g with bonusFoodTimer := g.bonusFoodTimer + 1 }) ∨
    (1000 < g.bonusFoodTimer + 1 ∧ ∃ c n, OffSnakes g c ∧
      g' = { g with bonusFoodTimer := 0, bonusFood := c, randCalls := n }) := by
  cases hc1 : g.snake1.body with
  | nil => simp [collisionsAndTimer, Snake.checkSelfCollision, hc1] at h
  | cons h1 t1 =>
    cases hc2 : g.snake2.body with
    | nil =>
      simp only [collisionsAndTimer, Snake.checkSelfCollision, hc1, hc2, Option.some_bind,
        Option.none_bind] at h
      split_ifs at h with hs1
      exact Or.inl ⟨_, h⟩
    | cons h2 t2 =>
      simp only [collisionsAndTimer, Snake.checkSelfCollision, hc1, hc2, Option.some_bind] at h
      split_ifs at h with hs1 hs2 hx2 hx1 htimer
      · exact Or.inl ⟨_, h⟩
      · exact Or.inl ⟨_, h⟩
      · exact Or.inl ⟨_, h⟩
      · exact Or.inl ⟨_, h⟩
      · simp only [Option.bind_eq_some] at h
        obtain ⟨ga, hga, hg'⟩ := h
        obtain ⟨c, n, hc, rfl⟩ := placeBonusFood_result r fuel _ ga hga
        refine Or.inr (Or.inr ⟨htimer, c, n, hc, ?_⟩)
        simpa using hg'.symm
      · refine Or.inr (Or.inl ⟨by simpa using htimer, ?_⟩)
        simpa using h.symm

/-- The stages of a returned tick: both snakes have moved, the four food
tests have returned without touching the bodies, and the tick ends with the
collision tests and the timer. -/
theorem update_stages (r : Nat → Nat) (fuel : Nat) (g g' : Game)
    (h : update r fuel g = some g') :
    ∃ s1 s2 head1 rest1 head2 rest2 ga gb gc gd,
      g.snake1.move = some s1 ∧ g.snake2.move = some s2 ∧
      s1.body = head1 :: rest1 ∧ s2.body = head2 :: rest2 ∧
      checkFoodCollision r fuel Player.one { g with snake1 := s1, snake2 := s2 } = some ga ∧
      checkFoodCollision r fuel Player.two ga = some gb ∧
      bonusCheck1 r fuel head1 gb = some gc ∧
      bonusCheck2 r fuel head2 gc = some gd ∧
      collisionsAndTimer r fuel head1 head2 gd = some g' ∧
      gd.snake1.body = s1.body ∧ gd.snake2.body = s2.body := by
  simp only [update, Option.bind_eq_some] at h
  obtain ⟨s1, h1, s2, h2, ga, hga, gb, hgb, head1, hh1, head2, hh2, gc, hgc, gd, hgd, hfin⟩ := h
  have ha : ga.snake1.body = s1.body ∧ ga.snake2.body = s2.body := by
    obtain ⟨_, _, _, ⟨_, _, _, _, rfl⟩ | ⟨_, rfl⟩⟩ := checkFoodCollision_one_result r fuel _ _ hga
    · exact ⟨rfl, rfl⟩
    · exact ⟨rfl, rfl⟩
  have hb : gb.snake1.body = ga.snake1.body ∧ gb.snake2.body = ga.snake2.body := by
    obtain ⟨_, _, _, ⟨_, _, _, _, rfl⟩ | ⟨_, rfl⟩⟩ := checkFoodCollision_two_result r fuel _ _ hgb
    · exact ⟨rfl, rfl⟩
    · exact ⟨rfl, rfl⟩
  have hc : gc.snake1.body = gb.snake1.body ∧ gc.snake2.body = gb.snake2.body := by
    obtain ⟨_, _, _, _, rfl⟩ | ⟨_, rfl⟩ := bonusCheck1_result r fuel _ _ _ hgc
    · exact ⟨rfl, rfl⟩
    · exact ⟨rfl, rfl⟩
  have hd : gd.snake1.body = gc.snake1.body ∧ gd.snake2.body = gc.snake2.body := by
    obtain ⟨_, _, _, _, rfl⟩ | ⟨_, rfl⟩ := bonusCheck2_result r fuel _ _ _ hgd
    · exact ⟨rfl, rfl⟩
    · exact ⟨rfl, rfl⟩
  have e1 : gb.snake1.body = s1.body := hb.1.trans ha.1
  have e2 : gb.snake2.body = s2.body := hb.2.trans ha.2
  rw [e1] at hh1
  rw [e2] at hh2
  obtain ⟨rest1, hr1⟩ : ∃ rest1, s1.body = head1 :: rest1 := by
    cases hs : s1.body with
    | nil => simp [hs] at hh1
    | cons a l =>
      rw [hs] at hh1
      simp only [List.head?_cons, Option.some.injEq] at hh1
      exact ⟨l, by rw [hh1]⟩
  obtain ⟨rest2, hr2⟩ : ∃ rest2, s2.body = head2 :: rest2 := by
    cases hs : s2.body with
    | nil => simp [hs] at hh2
    | cons a l =>
      rw [hs] at hh2
      simp only [List.head?_cons, Option.some.injEq] at hh2
      exact ⟨l, by rw [hh2]⟩
  exact ⟨s1, s2, head1, rest1, head2, rest2, ga, gb, gc, gd, h1, h2, hr1, hr2, hga, hgb,
    hgc, hgd, hfin, (hd.1.trans hc.1).trans e1, (hd.2.trans hc.2).trans e2⟩

/-- C9 as stated fails.  With the bonus food on the same cell as the regular
food, the tick raises the score of snake 1 by 3; when the head of snake 2
enters the same cell, the tick ends in a round reset and the score of snake 1
is 0 afterwards, with its body a single cell without pending growth. -/
theorem update_food_counterexample :
    (overlapGame.snake1.move.bind fun s1 => s1.body.head?) = some overlapGame.food ∧
    update sampleDraws 5 overlapGame =
      some { snake1 := { body := [⟨11, 15⟩], direction := Direction.RIGHT, growing := true }
             snake2 := { body := [⟨29, 15⟩], direction := Direction.LEFT, growing := false }
             food := ⟨10, 15⟩
             bonusFood := ⟨30, 15⟩
             score1 := overlapGame.score1 + 3
             score2 := 0
             bonusFoodTimer := 1
             randCalls := 4
             screen := [] } ∧
    (headOnGame.snake1.move.bind fun s1 => s1.body.head?) = some headOnGame.food ∧
    update sampleDraws 5 headOnGame =
      some { snake1 := { body := [⟨10, 15⟩], direction := Direction.RIGHT, growing := false }
             snake2 := { body := [⟨30, 15⟩], direction := Direction.LEFT, growing := false }
             food := ⟨3, 4⟩
             bonusFood := ⟨7, 7⟩
             score1 := 0
             score2 := 0
             bonusFoodTimer := 0
             randCalls := 8
             screen := ["Player 2 (Blue) died by colliding into Player 1 (Green). Player 1 wins!"] } ∧
    (0 : Int) ≠ headOnGame.score1 + 1 := by
  refine ⟨by decide, by decide, by decide, by decide, by decide⟩

/-- C9 (amended): when the regular food lies on the cell that the head of
snake 1 enters on its move and the bonus food does not lie on that cell, a tick
that returns without a round reset (no message is shown) increases score 1 by
exactly 1, re-places the regular food on a cell off both snakes and different
from its previous cell, and leaves snake 1 with growth pending, so that its
body is one cell longer after the following move.  On a fair stream with a
grid cell off both moved bodies the tick returns for every sufficiently large
fuel. -/
theorem update_food (r : Nat → Nat) (g : Game) (s1 : Snake)
    (h1 : g.snake1.move = some s1) (hfood : s1.body.head? = some g.food)
    (hbonus : g.bonusFood ≠ g.food) :
    (∀ fuel g', update r fuel g = some g' → g'.screen = g.screen →
      g'.score1 = g.score1 + 1 ∧ g'.food ≠ g.food ∧ OffSnakes g' g'.food ∧
      g'.snake1.body = s1.body ∧ g'.snake1.growing = true ∧
      ∃ s1', g'.snake1.move = some s1' ∧
        s1'.body.length = g'.snake1.body.length + 1) ∧
    (∀ s2, g.snake2.move = some s2 → Fair r g.randCalls →
      (∃ c, InGrid c ∧ c ∉ s1.body ∧ c ∉ s2.body) →
      ∃ g', Settles (fun fuel => update r fuel g) g') := by
  refine ⟨?_, fun s2 h2 hfair hfree => update_settles r g s1 s2 h1 h2 hfair hfree⟩
  intro fuel g' hrun hquiet
  obtain ⟨s1', s2, head1, rest1, head2, rest2, ga, gb, gc, gd, h1', h2, hr1, hr2, hga, hgb,
    hgc, hgd, hfin, hd1, hd2⟩ := update_stages r fuel g g' hrun
  rw [h1] at h1'
  cases h1'
  rw [hr1] at hfood
  simp only [List.head?_cons, Option.some.injEq] at hfood
  subst hfood
  -- snake 1 eats the regular food
  obtain ⟨hd, tl, hbody, hcase⟩ := checkFoodCollision_one_result r fuel _ _ hga
  simp only [hr1, List.cons.injEq] at hbody
  obtain ⟨rfl, rfl⟩ := hbody
  rcases hcase with ⟨_, c, n, hc, rfl⟩ | ⟨hne, _⟩
  swap
  · exact absurd rfl hne
  have hc1 : c ∉ s1.body := hc.1
  have hc2 : c ∉ s2.body := hc.2
  have hcne : c ≠ g.food := by
    intro e
    apply hc1
    rw [hr1, e]
    exact List.mem_cons_self _ _
  -- snake 2 does not eat the new food
  obtain ⟨hd', tl', hbody', hcase'⟩ := checkFoodCollision_two_result r fuel _ _ hgb
  simp only [hr2, List.cons.injEq] at hbody'
  obtain ⟨rfl, rfl⟩ := hbody'
  rcases hcase' with ⟨he, _⟩ | ⟨_, rfl⟩
  · exfalso
    apply hc2
    rw [hr2]
    simp only at he
    rw [← he]
    exact List.mem_cons_self _ _
  -- snake 1 is not on the bonus food
  rcases bonusCheck1_result r fuel _ _ _ hgc with ⟨he, _⟩ | ⟨_, rfl⟩
  · exact absurd he.symm hbonus
  have hlen : ∃ s1', s1.grow.move = some s1' ∧ s1'.body.length = s1.body.length + 1 := by
    obtain ⟨s1', hm, _, hl⟩ :=
      move_length_of_ne s1.grow (by show s1.body ≠ []; rw [hr1]; exact List.cons_ne_nil _ _)
    exact ⟨s1', hm, by simpa [Snake.grow] using hl⟩
  -- the rest of the tick leaves score 1, the food and snake 1 alone
  have key : ∀ gd : Game, gd.score1 = g.score1 + 1 → gd.food = c → gd.snake1 = s1.grow →
      gd.snake2.body = s2.body → gd.screen = g.screen →
      collisionsAndTimer r fuel g.food head2 gd = some g' →
      g'.score1 = g.score1 + 1 ∧ g'.food ≠ g.food ∧ OffSnakes g' g'.food ∧
      g'.snake1.body = s1.body ∧ g'.snake1.growing = true ∧
      ∃ s1', g'.snake1.move = some s1' ∧ s1'.body.length = g'.snake1.body.length + 1 := by
    intro gd hs hf hsn hsn2 hscr hfin
    have hoff : ∀ g'' : Game, g''.snake1 = s1.grow → g''.snake2.body = s2.body →
        g''.food = c → OffSnakes g'' g''.food := by
      intro g'' e1 e2 e3
      refine ⟨?_, ?_⟩
      · rw [e1, e3]
        exact hc1
      · rw [e2, e3]
        exact hc2
    rcases collisionsAndTimer_result r fuel _ _ _ _ hfin with
      ⟨message, hreset⟩ | ⟨_, rfl⟩ | ⟨_, c', n', _, rfl⟩
    · obtain ⟨_, _, _, rfl, _⟩ := resetGame_result r fuel message gd g' hreset
      simp only [hscr] at hquiet
      simp at hquiet
    · refine ⟨hs, by simpa [hf] using hcne, hoff _ hsn hsn2 hf, ?_, ?_, ?_⟩
      · simp only [hsn]
        rfl
      · simp only [hsn]
        rfl
      · simp only [hsn]
        exact hlen
    · refine ⟨hs, by simpa [hf] using hcne, hoff _ hsn hsn2 hf, ?_, ?_, ?_⟩
      · simp only [hsn]
        rfl
      · simp only [hsn]
        rfl
      · simp only [hsn]
        exact hlen
  have hgd' : gd.score1 = g.score1 + 1 ∧ gd.food = c ∧ gd.snake1 = s1.grow ∧
      gd.snake2.body = s2.body ∧ gd.screen = g.screen := by
    rcases bonusCheck2_result r fuel _ _ _ hgd with ⟨_, c', n', _, rfl⟩ | ⟨_, rfl⟩
    · exact ⟨rfl, rfl, rfl, rfl, rfl⟩
    · exact ⟨rfl, rfl, rfl, rfl, rfl⟩
  exact key gd hgd'.1 hgd'.2.1 hgd'.2.2.1 hgd'.2.2.2.1 hgd'.2.2.2.2 hfin

theorem update_food_witness :
    sampleGame.snake1.move =
        some { body := [⟨11, 15⟩], direction := Direction.RIGHT, growing := false } ∧
    sampleGame.bonusFood ≠ sampleGame.food ∧
    update cycleDraws 5 sampleGame = some fedGame ∧
    fedGame.score1 = sampleGame.score1 + 1 ∧
    ∃ g', Settles (fun fuel => update cycleDraws fuel sampleGame) g' :=
  have h := update_food cycleDraws sampleGame
    { body := [⟨11, 15⟩], direction := Direction.RIGHT, growing := false }
    (by decide) (by decide) (by decide)
  ⟨by decide, by decide, by decide,
   (h.1 5 fedGame (by decide) (by decide)).1,
   h.2 { body := [⟨29, 15⟩], direction := Direction.LEFT, growing := false } (by decide)
     fair_cycleDraws ⟨⟨0, 0⟩, by decide, by decide, by decide⟩⟩

/-- A returned `resetGame` leaves a fresh round. -/
theorem resetGame_fresh (r : Nat → Nat) (fuel : Nat) (message : String) (g g' : Game)
    (h : resetGame r fuel message g = some g') : FreshRound g' := by
  obtain ⟨c, c', n, rfl, hc, hc'⟩ := resetGame_result r fuel message g g' h
  exact ⟨rfl, rfl, rfl, rfl, hc, hc'⟩

/-- The last part of a tick resets the round for player 1 when snake 1
self-collides. -/
theorem collisionsAndTimer_self1 (r : Nat → Nat) (fuel : Nat) (head1 head2 : SDL_Point)
    (g : Game) (head : SDL_Point) (rest : List SDL_Point)
    (hbody : g.snake1.body = head :: rest)
    (hhit : Snake.checkSelfCollisionLoop head rest = true) :
    collisionsAndTimer r fuel head1 head2 g =
      resetGame r fuel "Player 1 (Green) died by self-collision. Player 2 (Blue) wins!" g := by
  simp [collisionsAndTimer, Snake.checkSelfCollision, hbody, hhit]

/-- C10: a returned `resetGame` leaves snake 1 as the single cell `(10, 15)`
heading Right and snake 2 as the single cell `(30, 15)` heading Left, neither
with growth pending, both scores 0 and both food items on cells off both
snakes; a returned tick in which snake 1 self-collides ends in such a state.
On a fair stream `resetGame` returns, and so does such a tick when a grid cell
is off both moved bodies. -/
theorem resetGame_spec (r : Nat → Nat) (message : String) (g : Game) :
    (∀ fuel g', resetGame r fuel message g = some g' → FreshRound g') ∧
    (∀ fuel g' s1, update r fuel g = some g' → g.snake1.move = some s1 →
      s1.checkSelfCollision = some (true, s1) → FreshRound g') ∧
    (Fair r g.randCalls → ∃ g', Settles (fun fuel => resetGame r fuel message g) g') ∧
    (Fair r g.randCalls → ∀ s1 s2, g.snake1.move = some s1 → g.snake2.move = some s2 →
      s1.checkSelfCollision = some (true, s1) →
      (∃ c, InGrid c ∧ c ∉ s1.body ∧ c ∉ s2.body) →
      ∃ g', Settles (fun fuel => update r fuel g) g' ∧ FreshRound g') := by
  have part2 : ∀ fuel g' s1, update r fuel g = some g' → g.snake1.move = some s1 →
      s1.checkSelfCollision = some (true, s1) → FreshRound g' := by
    intro fuel g' s1 hrun h1 hself
    obtain ⟨s1', s2, head1, rest1, head2, rest2, ga, gb, gc, gd, h1', _, hr1, _, _, _,
      _, _, hfin, hd1, _⟩ := update_stages r fuel g g' hrun
    rw [h1] at h1'
    cases h1'
    have hhit : Snake.checkSelfCollisionLoop head1 rest1 = true := by
      simpa [Snake.checkSelfCollision, hr1] using hself
    rw [collisionsAndTimer_self1 r fuel head1 head2 gd head1 rest1 (hd1.trans hr1) hhit] at hfin
    exact resetGame_fresh r fuel _ gd g' hfin
  refine ⟨fun fuel g' h => resetGame_fresh r fuel message g g' h, part2,
    fun hfair => resetGame_settles r message g hfair, ?_⟩
  intro hfair s1 s2 h1 h2 hself hfree
  obtain ⟨g', N, hN⟩ := update_settles r g s1 s2 h1 h2 hfair hfree
  exact ⟨g', ⟨N, hN⟩, part2 N g' s1 (hN N (le_refl N)) h1 hself⟩

theorem resetGame_spec_witness :
    resetGame cycleDraws 5 "Round over" coilingGame = some (restartedGame "Round over") ∧
    FreshRound (restartedGame "Round over") ∧
    update cycleDraws 5 coilingGame =
      some (restartedGame "Player 1 (Green) died by self-collision. Player 2 (Blue) wins!") ∧
    FreshRound
      (restartedGame "Player 1 (Green) died by self-collision. Player 2 (Blue) wins!") ∧
    (∃ g', Settles (fun fuel => resetGame cycleDraws fuel "Round over" coilingGame) g') ∧
    (∃ g', Settles (fun fuel => update cycleDraws fuel coilingGame) g' ∧ FreshRound g') :=
  have h := resetGame_spec cycleDraws "Round over" coilingGame
  ⟨by decide, h.1 5 _ (by decide), by decide,
   h.2.1 5 _
     { body := [⟨6, 5⟩, ⟨5, 5⟩, ⟨5, 6⟩, ⟨6, 6⟩, ⟨6, 5⟩], direction := Direction.RIGHT,
       growing := false }
     (by decide) (by decide) (by decide),
   h.2.2.1 fair_cycleDraws,
   h.2.2.2 fair_cycleDraws
     { body := [⟨6, 5⟩, ⟨5, 5⟩, ⟨5, 6⟩, ⟨6, 6⟩, ⟨6, 5⟩], direction := Direction.RIGHT,
       growing := false }
     { body := [⟨29, 15⟩], direction := Direction.LEFT, growing := false }
     (by decide) (by decide) (by decide) ⟨⟨0, 0⟩, by decide, by decide, by decide⟩⟩

/-! ### Runs of calls on one snake -/

/-- Every call keeps a non-empty body non-empty, and a run of calls from a
non-empty body returns. -/
theorem runCalls_of_ne (calls : List Call) :
    ∀ s : Snake, s.body ≠ [] →
      ∃ s' used, runCalls s calls = some (s', used) ∧ s'.body ≠ [] := by
  induction calls with
  | nil =>
    intro s hne
    exact ⟨s, [], rfl, hne⟩
  | cons c rest ih =>
    intro s hne
    cases c with
    | move =>
      obtain ⟨s1, hm, _, hl⟩ := move_length_of_ne s hne
      have hne1 : s1.body ≠ [] := by
        intro h0
        have hpos : 0 < s.body.length := List.length_pos.mpr hne
        rw [h0] at hl
        simp only [List.length_nil] at hl
        split_ifs at hl
        all_goals omega
      obtain ⟨s', used, hrun, hne'⟩ := ih s1 hne1
      exact ⟨s', s.direction :: used, by simp [runCalls, hm, hrun], hne'⟩
    | grow =>
      obtain ⟨s', used, hrun, hne'⟩ := ih s.grow hne
      exact ⟨s', used, by simpa [runCalls] using hrun, hne'⟩
    | setDirection newDir =>
      have hb : (s.setDirection newDir).body = s.body := by
        unfold Snake.setDirection
        split_ifs <;> rfl
      obtain ⟨s', used, hrun, hne'⟩ := ih (s.setDirection newDir) (by rw [hb]; exact hne)
      exact ⟨s', used, by simpa [runCalls] using hrun, hne'⟩

/-- C15: every run of `move()`, `grow()` and `setDirection()` calls from the
constructor returns (no `move()` of the run reads the front of an empty body),
and the snake it reaches has body length `≥ 1`, so that `move()` and
`checkSelfCollision()` are defined on it. -/
theorem runCalls_body_length (startX startY : Int) (startDirection : Direction)
    (calls : List Call) :
    ∃ s used, runCalls (Snake.new startX startY startDirection) calls = some (s, used) ∧
      1 ≤ s.body.length ∧ (∃ s', s.move = some s') ∧
      (∃ b, s.checkSelfCollision = some (b, s)) := by
  obtain ⟨s, used, hrun, hne⟩ :=
    runCalls_of_ne calls (Snake.new startX startY startDirection) (by simp [Snake.new])
  refine ⟨s, used, hrun, List.length_pos.mpr hne, ?_, ?_⟩
  · obtain ⟨s', hm, _⟩ := move_length_of_ne s hne
    exact ⟨s', hm⟩
  · cases hb : s.body with
    | nil => exact absurd hb hne
    | cons head rest =>
      exact ⟨Snake.checkSelfCollisionLoop head rest, by simp [Snake.checkSelfCollision, hb]⟩

/-- C16: from an in-grid start cell `(x, y)`, a freshly constructed snake
heading Right has after `n` moves, with no direction change and no growth, its
head at `((x + n) mod 40, y)` and body length 1 (the body is that single
cell). -/
theorem runCalls_moves_right (n : Nat) :
    ∀ (x y : Int), InGrid ⟨x, y⟩ →
      runCalls (Snake.new x y Direction.RIGHT) (List.replicate n Call.move) =
        some ({ body := [⟨(x + n) % 40, y⟩], direction := Direction.RIGHT, growing := false },
              List.replicate n Direction.RIGHT) := by
  induction n with
  | zero =>
    intro x y hin
    simp only [InGrid] at hin
    have hx : x % 40 = x := by omega
    simp [runCalls, Snake.new, hx]
  | succ n ih =>
    intro x y hin
    have hstep : (Snake.new x y Direction.RIGHT).move =
        some (Snake.new ((x + 1) % 40) y Direction.RIGHT) := by
      rw [move_cons _ ⟨x, y⟩ [] rfl, steppedHead_eq_mod _ _ hin]
      simp only [InGrid] at hin
      have hy : y % 30 = y := by omega
      simp [Snake.new, Direction.delta, hy]
    have hin' : InGrid ⟨(x + 1) % 40, y⟩ := by
      simp only [InGrid] at hin ⊢
      omega
    have hx : ((x + 1) % 40 + (n : Int)) % 40 = (x + ((n + 1 : Nat) : Int)) % 40 := by
      push_cast
      omega
    simp only [List.replicate_succ, runCalls, hstep, Option.some_bind, ih _ _ hin', hx]
    rfl

theorem runCalls_moves_right_witness :
    InGrid ⟨10, 15⟩ ∧
    runCalls (Snake.new 10 15 Direction.RIGHT) (List.replicate 3 Call.move) =
      some ({ body := [⟨(10 + (3 : Nat)) % 40, 15⟩], direction := Direction.RIGHT,
              growing := false },
            List.replicate 3 Direction.RIGHT) ∧
    (⟨(10 + (3 : Nat)) % 40, 15⟩ : SDL_Point) = ⟨13, 15⟩ :=
  ⟨by decide, runCalls_moves_right 3 10 15 (by decide), by decide⟩

/-- The loop of `checkSelfCollision()` finds a match exactly when the head is
one of the cells of the list. -/
theorem checkSelfCollisionLoop_iff_mem (head : SDL_Point) (rest : List SDL_Point) :
    Snake.checkSelfCollisionLoop head rest = true ↔ head ∈ rest := by
  rw [checkSelfCollisionLoop_iff]
  constructor
  · rintro ⟨c, hc, hxy⟩
    rw [← (point_eq_iff c head).mp hxy]
    exact hc
  · intro h
    exact ⟨head, h, rfl, rfl⟩

/-- The run of `loopCalls` from an in-grid cell, for a start heading other
than Left. -/
theorem runCalls_loop (x y : Int) (d : Direction) (hin : InGrid ⟨x, y⟩)
    (hd : d ≠ Direction.LEFT) :
    runCalls (Snake.new x y d) loopCalls =
      some ({ body := [⟨x, y⟩, ⟨x, (y + 1) % 30⟩, ⟨(x + 1) % 40, (y + 1) % 30⟩,
                       ⟨(x + 1) % 40, y⟩, ⟨x, y⟩],
              direction := Direction.UP, growing := false },
            [Direction.RIGHT, Direction.DOWN, Direction.LEFT, Direction.UP]) := by
  have hin1 : InGrid ⟨(x + 1) % 40, y⟩ := by
    simp only [InGrid] at hin ⊢
    omega
  have hin2 : InGrid ⟨(x + 1) % 40, (y + 1) % 30⟩ := by
    simp only [InGrid] at hin ⊢
    omega
  have hin3 : InGrid ⟨x, (y + 1) % 30⟩ := by
    simp only [InGrid] at hin ⊢
    omega
  have p1 : Snake.steppedHead Direction.RIGHT ⟨x, y⟩ = ⟨(x + 1) % 40, y⟩ := by
    rw [steppedHead_eq_mod _ _ hin]
    simp only [InGrid] at hin
    simp only [Direction.delta, SDL_Point.mk.injEq, true_and, and_true]
    omega
  have p2 : Snake.steppedHead Direction.DOWN ⟨(x + 1) % 40, y⟩ =
      ⟨(x + 1) % 40, (y + 1) % 30⟩ := by
    rw [steppedHead_eq_mod _ _ hin1]
    simp only [InGrid] at hin
    simp only [Direction.delta, SDL_Point.mk.injEq, true_and, and_true]
    omega
  have p3 : Snake.steppedHead Direction.LEFT ⟨(x + 1) % 40, (y + 1) % 30⟩ =
      ⟨x, (y + 1) % 30⟩ := by
    rw [steppedHead_eq_mod _ _ hin2]
    simp only [InGrid] at hin
    simp only [Direction.delta, SDL_Point.mk.injEq, true_and, and_true]
    omega
  have p4 : Snake.steppedHead Direction.UP ⟨x, (y + 1) % 30⟩ = ⟨x, y⟩ := by
    rw [steppedHead_eq_mod _ _ hin3]
    simp only [InGrid] at hin
    simp only [Direction.delta, SDL_Point.mk.injEq, true_and, and_true]
    omega
  cases d <;>
    simp [loopCalls, runCalls, Snake.move, Snake.grow, Snake.setDirection, Snake.new,
      p1, p2, p3, p4] at hd ⊢

/-- C17: after `move()` on a non-empty body, `checkSelfCollision()` is true if
and only if the new head is a cell of the old body that remains (every cell if
growth was pending, every cell but the last otherwise), so that a head that
only meets the cell of the removed last segment does not collide; a freshly
constructed snake driven round the 2x2 loop with growth is in self-collision
after the fourth move. -/
theorem move_checkSelfCollision (s : Snake) (hne : s.body ≠ []) :
    (∃ s' newHead b, s.move = some s' ∧ s'.body.head? = some newHead ∧
      s'.checkSelfCollision = some (b, s') ∧
      (b = true ↔ newHead ∈ (if s.growing then s.body else s.body.dropLast)) ∧
      (s.growing = false → newHead ∉ s.body.dropLast → b = false)) ∧
    (∀ (x y : Int) (d : Direction), InGrid ⟨x, y⟩ → d ≠ Direction.LEFT →
      ∃ t, runCalls (Snake.new x y d) loopCalls =
          some (t, [Direction.RIGHT, Direction.DOWN, Direction.LEFT, Direction.UP]) ∧
        t.checkSelfCollision = some (true, t)) := by
  constructor
  · cases hb : s.body with
    | nil => exact absurd hb hne
    | cons front rest =>
      have hm := move_cons s front rest hb
      rw [hb] at hm
      refine ⟨_, Snake.steppedHead s.direction front,
        Snake.checkSelfCollisionLoop (Snake.steppedHead s.direction front)
          (if s.growing then front :: rest else (front :: rest).dropLast),
        hm, rfl, rfl, checkSelfCollisionLoop_iff_mem _ _, ?_⟩
      intro hg hnot
      rw [hg]
      simp only [Bool.false_eq_true, if_false]
      cases hc : Snake.checkSelfCollisionLoop (Snake.steppedHead s.direction front)
          (front :: rest).dropLast with
      | false => rfl
      | true => exact absurd ((checkSelfCollisionLoop_iff_mem _ _).mp hc) hnot
  · intro x y d hin hd
    refine ⟨_, runCalls_loop x y d hin hd, ?_⟩
    simp [Snake.checkSelfCollision, Snake.checkSelfCollisionLoop]

theorem move_checkSelfCollision_witness :
    squareSnake.body ≠ [] ∧
    squareSnake.move =
      some { body := [⟨6, 5⟩, ⟨5, 5⟩, ⟨5, 6⟩, ⟨6, 6⟩], direction := Direction.RIGHT,
             growing := false } ∧
    squareSnake.body.getLast? = some ⟨6, 5⟩ ∧
    Snake.checkSelfCollision
        { body := [⟨6, 5⟩, ⟨5, 5⟩, ⟨5, 6⟩, ⟨6, 6⟩], direction := Direction.RIGHT,
          growing := false } =
      some (false, { body := [⟨6, 5⟩, ⟨5, 5⟩, ⟨5, 6⟩, ⟨6, 6⟩], direction := Direction.RIGHT,
                     growing := false }) ∧
    (∃ t, runCalls (Snake.new 10 15 Direction.RIGHT) loopCalls =
        some (t, [Direction.RIGHT, Direction.DOWN, Direction.LEFT, Direction.UP]) ∧
      t.checkSelfCollision = some (true, t)) :=
  ⟨by decide, by decide, by decide, by decide,
   (move_checkSelfCollision squareSnake (by decide)).2 10 15 Direction.RIGHT
     (by decide) (by decide)⟩

/-! ### The collision tests of a tick -/

/-- The last part of a tick, on bodies with heads `h1` and `h2`: the four
collision tests in their order, then the timer. -/
theorem collisionsAndTimer_eq (r : Nat → Nat) (fuel : Nat) (head1 head2 : SDL_Point)
    (g : Game) (h1 h2 : SDL_Point) (t1 t2 : List SDL_Point)
    (hb1 : g.snake1.body = h1 :: t1) (hb2 : g.snake2.body = h2 :: t2) :
    collisionsAndTimer r fuel head1 head2 g =
      if h1 ∈ t1 then
        resetGame r fuel "Player 1 (Green) died by self-collision. Player 2 (Blue) wins!" g
      else if h2 ∈ t2 then
        resetGame r fuel "Player 2 (Blue) died by self-collision. Player 1 (Green) wins!" g
      else if head2 ∈ g.snake1.body then
        resetGame r fuel
          "Player 2 (Blue) died by colliding into Player 1 (Green). Player 1 wins!" g
      else if head1 ∈ g.snake2.body then
        resetGame r fuel
          "Player 1 (Green) died by colliding into Player 2 (Blue). Player 2 wins!" g
      else if 1000 < g.bonusFoodTimer + 1 then
        (placeBonusFood r fuel { g with bonusFoodTimer := g.bonusFoodTimer + 1 }).bind
          fun g => some { g with bonusFoodTimer := 0 }
      else some { g with bonusFoodTimer := g.bonusFoodTimer + 1 } := by
  have e1 : Snake.checkSelfCollisionLoop h1 t1 = decide (h1 ∈ t1) := by
    rw [Bool.eq_iff_iff, checkSelfCollisionLoop_iff_mem]
    simp
  have e2 : Snake.checkSelfCollisionLoop h2 t2 = decide (h2 ∈ t2) := by
    rw [Bool.eq_iff_iff, checkSelfCollisionLoop_iff_mem]
    simp
  have e3 : onBody head2 g.snake1.body = decide (head2 ∈ g.snake1.body) := by
    rw [Bool.eq_iff_iff, onBody_iff]
    simp
  have e4 : onBody head1 g.snake2.body = decide (head1 ∈ g.snake2.body) := by
    rw [Bool.eq_iff_iff, onBody_iff]
    simp
  simp only [collisionsAndTimer, Snake.checkSelfCollision, hb1, hb2, Option.some_bind, e1, e2]
  rw [← hb1, ← hb2]
  simp only [e3, e4, decide_eq_true_eq, gt_iff_lt]

/-- The effect of `checkFoodCollision(snake1, score1)` member by member. -/
theorem checkFoodCollision_one_fields (r : Nat → Nat) (fuel : Nat) (g g' : Game)
    (head1 : SDL_Point) (rest1 : List SDL_Point) (hb1 : g.snake1.body = head1 :: rest1)
    (h : checkFoodCollision r fuel Player.one g = some g') :
    g'.snake1 = (if head1 = g.food then g.snake1.grow else g.snake1) ∧
    g'.snake2 = g.snake2 ∧
    g'.score1 = g.score1 + (if head1 = g.food then 1 else 0) ∧
    g'.score2 = g.score2 ∧
    (if head1 = g.food then OffSnakes g g'.food else g'.food = g.food) ∧
    g'.bonusFood = g.bonusFood ∧
    g'.bonusFoodTimer = g.bonusFoodTimer ∧ g'.screen = g.screen := by
  obtain ⟨x, l, hx, hA⟩ := checkFoodCollision_one_result r fuel _ _ h
  rw [hb1] at hx
  cases hx
  rcases hA with ⟨e, c, n, hc, rfl⟩ | ⟨e, rfl⟩
  · simpa [e] using hc
  · simp [e]

/-- The effect of `checkFoodCollision(snake2, score2)` member by member. -/
theorem checkFoodCollision_two_fields (r : Nat → Nat) (fuel : Nat) (g g' : Game)
    (head2 : SDL_Point) (rest2 : List SDL_Point) (hb2 : g.snake2.body = head2 :: rest2)
    (h : checkFoodCollision r fuel Player.two g = some g') :
    g'.snake1 = g.snake1 ∧
    g'.snake2 = (if head2 = g.food then g.snake2.grow else g.snake2) ∧
    g'.score1 = g.score1 ∧
    g'.score2 = g.score2 + (if head2 = g.food then 1 else 0) ∧
    (if head2 = g.food then OffSnakes g g'.food else g'.food = g.food) ∧
    g'.bonusFood = g.bonusFood ∧
    g'.bonusFoodTimer = g.bonusFoodTimer ∧ g'.screen = g.screen := by
  obtain ⟨x, l, hx, hA⟩ := checkFoodCollision_two_result r fuel _ _ h
  rw [hb2] at hx
  cases hx
  rcases hA with ⟨e, c, n, hc, rfl⟩ | ⟨e, rfl⟩
  · simpa [e] using hc
  · simp [e]

/-- The effect of the bonus-food test of snake 1 member by member. -/
theorem bonusCheck1_fields (r : Nat → Nat) (fuel : Nat) (head1 : SDL_Point) (g g' : Game)
    (h : bonusCheck1 r fuel head1 g = some g') :
    g'.snake1 = (if head1 = g.bonusFood then g.snake1.grow else g.snake1) ∧
    g'.snake2 = g.snake2 ∧
    g'.score1 = g.score1 + (if head1 = g.bonusFood then 2 else 0) ∧
    g'.score2 = g.score2 ∧
    g'.food = g.food ∧
    (if head1 = g.bonusFood then OffSnakes g g'.bonusFood else g'.bonusFood = g.bonusFood) ∧
    g'.bonusFoodTimer = g.bonusFoodTimer ∧ g'.screen = g.screen := by
  rcases bonusCheck1_result r fuel _ _ _ h with ⟨e, c, n, hc, rfl⟩ | ⟨e, rfl⟩
  · simpa [e] using hc
  · simp [e]

/-- The effect of the bonus-food test of snake 2 member by member. -/
theorem bonusCheck2_fields (r : Nat → Nat) (fuel : Nat) (head2 : SDL_Point) (g g' : Game)
    (h : bonusCheck2 r fuel head2 g = some g') :
    g'.snake1 = g.snake1 ∧
    g'.snake2 = (if head2 = g.bonusFood then g.snake2.grow else g.snake2) ∧
    g'.score1 = g.score1 ∧
    g'.score2 = g.score2 + (if head2 = g.bonusFood then 2 else 0) ∧
    g'.food = g.food ∧
    (if head2 = g.bonusFood then OffSnakes g g'.bonusFood else g'.bonusFood = g.bonusFood) ∧
    g'.bonusFoodTimer = g.bonusFoodTimer ∧ g'.screen = g.screen := by
  rcases bonusCheck2_result r fuel _ _ _ h with ⟨e, c, n, hc, rfl⟩ | ⟨e, rfl⟩
  · simpa [e] using hc
  · simp [e]

theorem ite_grow_body (p : Prop) [Decidable p] (s : Snake) :
    (if p then s.grow else s).body = s.body := by
  split_ifs <;> rfl

theorem ite_grow_grow (p q : Prop) [Decidable p] [Decidable q] (s : Snake) :
    (if q then (if p then s.grow else s).grow else (if p then s.grow else s)) =
      (if p ∨ q then s.grow else s) := by
  by_cases hp : p <;> by_cases hq : q <;> simp [hp, hq, Snake.grow]

/-- The four food tests of a tick, on a state whose bodies have heads `head1`
and `head2`: which snake grows, what each score gains, and what becomes of
the two food items.  Snake 2 gets an item only when snake 1 has not taken it. -/
theorem food_stages (r : Nat → Nat) (fuel : Nat) (g ga gb gc gd : Game)
    (head1 head2 : SDL_Point) (rest1 rest2 : List SDL_Point)
    (hb1 : g.snake1.body = head1 :: rest1) (hb2 : g.snake2.body = head2 :: rest2)
    (hga : checkFoodCollision r fuel Player.one g = some ga)
    (hgb : checkFoodCollision r fuel Player.two ga = some gb)
    (hgc : bonusCheck1 r fuel head1 gb = some gc)
    (hgd : bonusCheck2 r fuel head2 gc = some gd) :
    gd.snake1 = (if head1 = g.food ∨ head1 = g.bonusFood then g.snake1.grow else g.snake1) ∧
    gd.snake2 = (if (head2 = g.food ∧ head1 ≠ g.food) ∨
        (head2 = g.bonusFood ∧ head1 ≠ g.bonusFood) then g.snake2.grow else g.snake2) ∧
    gd.score1 = g.score1 + (if head1 = g.food then 1 else 0) +
      (if head1 = g.bonusFood then 2 else 0) ∧
    gd.score2 = g.score2 + (if head2 = g.food ∧ head1 ≠ g.food then 1 else 0) +
      (if head2 = g.bonusFood ∧ head1 ≠ g.bonusFood then 2 else 0) ∧
    (if head1 = g.food ∨ head2 = g.food then OffSnakes g gd.food else gd.food = g.food) ∧
    (if head1 = g.bonusFood ∨ head2 = g.bonusFood then OffSnakes g gd.bonusFood
      else gd.bonusFood = g.bonusFood) ∧
    gd.bonusFoodTimer = g.bonusFoodTimer ∧ gd.screen = g.screen := by
  have hm2 : head2 ∈ g.snake2.body := by rw [hb2]; exact List.mem_cons_self _ _
  obtain ⟨a1, a2, a3, a4, a5, a6, a7, a8⟩ :=
    checkFoodCollision_one_fields r fuel g ga head1 rest1 hb1 hga
  obtain ⟨b1, b2, b3, b4, b5, b6, b7, b8⟩ :=
    checkFoodCollision_two_fields r fuel ga gb head2 rest2 (by rw [a2]; exact hb2) hgb
  obtain ⟨c1, c2, c3, c4, c5, c6, c7, c8⟩ := bonusCheck1_fields r fuel head1 gb gc hgc
  obtain ⟨d1, d2, d3, d4, d5, d6, d7, d8⟩ := bonusCheck2_fields r fuel head2 gc gd hgd
  have offa : ∀ c, OffSnakes ga c ↔ OffSnakes g c := by
    intro c
    simp only [OffSnakes, a1, a2, ite_grow_body]
  have offb : ∀ c, OffSnakes gb c ↔ OffSnakes g c := by
    intro c
    rw [← offa]
    simp only [OffSnakes, b1, b2, ite_grow_body]
  have offc : ∀ c, OffSnakes gc c ↔ OffSnakes g c := by
    intro c
    rw [← offb]
    simp only [OffSnakes, c1, c2, ite_grow_body]
  have hB : head2 = ga.food ↔ (head2 = g.food ∧ head1 ≠ g.food) := by
    by_cases e : head1 = g.food
    · rw [if_pos e] at a5
      have : head2 ≠ ga.food := fun h => a5.2 (h ▸ hm2)
      simp [e, this]
    · rw [if_neg e] at a5
      simp [e, a5]
  have hD : head2 = gc.bonusFood ↔ (head2 = g.bonusFood ∧ head1 ≠ g.bonusFood) := by
    rw [b6, a6] at c6
    by_cases e : head1 = g.bonusFood
    · rw [if_pos e, offb] at c6
      have : head2 ≠ gc.bonusFood := fun h => c6.2 (h ▸ hm2)
      simp [e, this]
    · rw [if_neg e] at c6
      simp [e, c6]
  rw [b6, a6] at c1 c3
  simp only [hB] at b2 b4 b5
  simp only [hD] at d2 d4 d6
  rw [offa] at b5
  rw [offc] at d6
  rw [b6, a6, offb] at c6
  refine ⟨?_, ?_, ?_, ?_, ?_, ?_, ?_, ?_⟩
  · rw [d1, c1, b1, a1]
    exact ite_grow_grow _ _ _
  · rw [d2, c2, b2, a2]
    exact ite_grow_grow _ _ _
  · rw [d3, c3, b3, a3]
  · rw [d4, c4, b4, a4]
  · rw [d5, c5]
    by_cases e1 : head1 = g.food
    · simp only [e1, true_or, if_true] at a5 ⊢
      by_cases e2 : head2 = g.food
      · have : ¬ (head2 = g.food ∧ g.food ≠ g.food) := fun h => h.2 rfl
        simp only [e1] at b5
        rw [if_neg this] at b5
        rw [b5]
        exact a5
      · have : ¬ (head2 = g.food ∧ g.food ≠ g.food) := fun h => h.2 rfl
        simp only [e1] at b5
        rw [if_neg this] at b5
        rw [b5]
        exact a5
    · rw [if_neg e1] at a5
      by_cases e2 : head2 = g.food
      · have : head2 = g.food ∧ head1 ≠ g.food := ⟨e2, e1⟩
        rw [if_pos this] at b5
        simp only [e1, e2, false_or, if_true]
        exact b5
      · have : ¬ (head2 = g.food ∧ head1 ≠ g.food) := fun h => e2 h.1
        rw [if_neg this] at b5
        simp only [e1, e2, false_or, if_false]
        rw [b5, a5]
  · by_cases e1 : head1 = g.bonusFood
    · rw [if_pos e1] at c6
      have : ¬ (head2 = g.bonusFood ∧ head1 ≠ g.bonusFood) := fun h => h.2 e1
      rw [if_neg this] at d6
      simp only [e1, true_or, if_true]
      rw [d6]
      simpa [e1] using c6
    · rw [if_neg e1] at c6
      by_cases e2 : head2 = g.bonusFood
      · have : head2 = g.bonusFood ∧ head1 ≠ g.bonusFood := ⟨e2, e1⟩
        rw [if_pos this] at d6
        simp only [e1, e2, false_or, if_true]
        exact d6
      · have : ¬ (head2 = g.bonusFood ∧ head1 ≠ g.bonusFood) := fun h => e2 h.1
        rw [if_neg this] at d6
        simp only [e1, e2, false_or, if_false]
        rw [d6, c6]
  · rw [d7, c7, b7, a7]
  · rw [d8, c8, b8, a8]

/-- A returned tick: both snakes move, the food tests leave a state `gd` as
described by `AfterFood`, and then exactly one of six things happens: one of
the four resets, in the order of the tests, or the timer counts, or the timer
relocates the bonus food. -/
theorem update_outcome (r : Nat → Nat) (fuel : Nat) (g g' : Game)
    (h : update r fuel g = some g') :
    ∃ s1 s2 head1 rest1 head2 rest2 gd,
      g.snake1.move = some s1 ∧ g.snake2.move = some s2 ∧
      s1.body = head1 :: rest1 ∧ s2.body = head2 :: rest2 ∧
      AfterFood g s1 s2 head1 head2 gd ∧
      ((head1 ∈ rest1 ∧ resetGame r fuel selfMessage1 gd = some g') ∨
       (head1 ∉ rest1 ∧ head2 ∈ rest2 ∧ resetGame r fuel selfMessage2 gd = some g') ∨
       (head1 ∉ rest1 ∧ head2 ∉ rest2 ∧ head2 ∈ head1 :: rest1 ∧
          resetGame r fuel crossMessage2 gd = some g') ∨
       (head1 ∉ rest1 ∧ head2 ∉ rest2 ∧ head2 ∉ head1 :: rest1 ∧ head1 ∈ head2 :: rest2 ∧
          resetGame r fuel crossMessage1 gd = some g') ∨
       (Clear head1 head2 rest1 rest2 ∧ g.bonusFoodTimer + 1 ≤ 1000 ∧
          g' = { gd with bonusFoodTimer := g.bonusFoodTimer + 1 }) ∨
       (Clear head1 head2 rest1 rest2 ∧ 1000 < g.bonusFoodTimer + 1 ∧
          ∃ c n, c ∉ s1.body ∧ c ∉ s2.body ∧
            g' = { gd with bonusFoodTimer := 0, bonusFood := c, randCalls := n })) := by
  obtain ⟨s1, s2, head1, rest1, head2, rest2, ga, gb, gc, gd, h1, h2, hr1, hr2, hga, hgb,
    hgc, hgd, hfin, hd1, hd2⟩ := update_stages r fuel g g' h
  have hfood := food_stages r fuel { g with snake1 := s1, snake2 := s2 } ga gb gc gd
    head1 head2 rest1 rest2 hr1 hr2 hga hgb hgc hgd
  refine ⟨s1, s2, head1, rest1, head2, rest2, gd, h1, h2, hr1, hr2, hfood, ?_⟩
  rw [collisionsAndTimer_eq r fuel head1 head2 gd head1 head2 rest1 rest2
    (hd1.trans hr1) (hd2.trans hr2), hd1, hd2, hr1, hr2, hfood.2.2.2.2.2.2.1] at hfin
  split_ifs at hfin with c1 c2 c3 c4 c5
  · exact Or.inl ⟨c1, hfin⟩
  · exact Or.inr (Or.inl ⟨c1, c2, hfin⟩)
  · exact Or.inr (Or.inr (Or.inl ⟨c1, c2, c3, hfin⟩))
  · exact Or.inr (Or.inr (Or.inr (Or.inl ⟨c1, c2, c3, c4, hfin⟩)))
  · simp only [Option.bind_eq_some] at hfin
    obtain ⟨ge, hge, hg'⟩ := hfin
    obtain ⟨c, n, hc, rfl⟩ := placeBonusFood_result r fuel _ ge hge
    refine Or.inr (Or.inr (Or.inr (Or.inr (Or.inr ⟨⟨c1, c2, c3, c4⟩, c5, c, n, ?_, ?_, ?_⟩))))
    · have := hc.1
      simp only [hd1] at this
      exact this
    · have := hc.2
      simp only [hd2] at this
      exact this
    · simp only [Option.some.injEq] at hg'
      rw [← hg']
  · have c5' : ¬ 1000 < g.bonusFoodTimer + 1 := c5
    refine Or.inr (Or.inr (Or.inr (Or.inr (Or.inl ⟨⟨c1, c2, c3, c4⟩, by omega, ?_⟩))))
    simp only [Option.some.injEq] at hfin
    rw [← hfin]

theorem checkSelfCollision_true_iff (s : Snake) (head : SDL_Point) (rest : List SDL_Point)
    (hb : s.body = head :: rest) :
    s.checkSelfCollision = some (true, s) ↔ head ∈ rest := by
  simp [Snake.checkSelfCollision, hb, checkSelfCollisionLoop_iff_mem]

theorem checkSelfCollision_false_iff (s : Snake) (head : SDL_Point) (rest : List SDL_Point)
    (hb : s.body = head :: rest) :
    s.checkSelfCollision = some (false, s) ↔ head ∉ rest := by
  rw [← checkSelfCollisionLoop_iff_mem]
  simp [Snake.checkSelfCollision, hb]

/-- A returned `resetGame` has shown exactly its message, has left the timer
alone and leaves a fresh round. -/
theorem resetGame_effect (r : Nat → Nat) (fuel : Nat) (message : String) (g g' : Game)
    (h : resetGame r fuel message g = some g') :
    g'.screen = g.screen ++ [message] ∧ g'.bonusFoodTimer = g.bonusFoodTimer ∧
      FreshRound g' := by
  refine ⟨?_, ?_, resetGame_fresh r fuel message g g' h⟩
  · obtain ⟨c, c', n, rfl, _⟩ := resetGame_result r fuel message g g' h
    rfl
  · obtain ⟨c, c', n, rfl, _⟩ := resetGame_result r fuel message g g' h
    rfl

/-- C11: in a returned tick, when the moved snake 1 self-collides the round
resets with the message of player 1, whatever snake 2 does; when snake 1 does
not self-collide and snake 2 does, the round resets with the message of
player 2; in both cases exactly one message is shown, and no tick shows more
than one.  On a fair stream with a grid cell off both moved bodies the tick
returns. -/
theorem update_self_collision (r : Nat → Nat) (g : Game) (s1 s2 : Snake)
    (h1 : g.snake1.move = some s1) (h2 : g.snake2.move = some s2) :
    (∀ fuel g', update r fuel g = some g' →
      (s1.checkSelfCollision = some (true, s1) →
        g'.screen = g.screen ++
          ["Player 1 (Green) died by self-collision. Player 2 (Blue) wins!"] ∧
        FreshRound g') ∧
      (s1.checkSelfCollision = some (false, s1) → s2.checkSelfCollision = some (true, s2) →
        g'.screen = g.screen ++
          ["Player 2 (Blue) died by self-collision. Player 1 (Green) wins!"] ∧
        FreshRound g') ∧
      (g'.screen = g.screen ∨ ∃ message, g'.screen = g.screen ++ [message])) ∧
    (Fair r g.randCalls → (∃ c, InGrid c ∧ c ∉ s1.body ∧ c ∉ s2.body) →
      ∃ g', Settles (fun fuel => update r fuel g) g') := by
  refine ⟨?_, fun hfair hfree => update_settles r g s1 s2 h1 h2 hfair hfree⟩
  intro fuel g' hrun
  obtain ⟨s1', s2', head1, rest1, head2, rest2, gd, h1', h2', hr1, hr2, hfood, hcase⟩ :=
    update_outcome r fuel g g' hrun
  rw [h1] at h1'
  rw [h2] at h2'
  cases h1'
  cases h2'
  have hscr : gd.screen = g.screen := hfood.2.2.2.2.2.2.2
  rw [checkSelfCollision_true_iff s1 head1 rest1 hr1,
    checkSelfCollision_false_iff s1 head1 rest1 hr1,
    checkSelfCollision_true_iff s2 head2 rest2 hr2]
  rcases hcase with ⟨c1, hres⟩ | ⟨c1, c2, hres⟩ | ⟨c1, c2, c3, hres⟩ |
    ⟨c1, c2, c3, c4, hres⟩ | ⟨⟨c1, c2, c3, c4⟩, _, rfl⟩ | ⟨⟨c1, c2, c3, c4⟩, _, c, n, _, _, rfl⟩
  · obtain ⟨e, _, hfresh⟩ := resetGame_effect r fuel _ gd g' hres
    rw [hscr] at e
    exact ⟨fun _ => ⟨e, hfresh⟩, fun hn => absurd c1 hn, Or.inr ⟨_, e⟩⟩
  · obtain ⟨e, _, hfresh⟩ := resetGame_effect r fuel _ gd g' hres
    rw [hscr] at e
    exact ⟨fun hy => absurd hy c1, fun _ _ => ⟨e, hfresh⟩, Or.inr ⟨_, e⟩⟩
  · obtain ⟨e, _, hfresh⟩ := resetGame_effect r fuel _ gd g' hres
    rw [hscr] at e
    exact ⟨fun hy => absurd hy c1, fun _ hy => absurd hy c2, Or.inr ⟨_, e⟩⟩
  · obtain ⟨e, _, hfresh⟩ := resetGame_effect r fuel _ gd g' hres
    rw [hscr] at e
    exact ⟨fun hy => absurd hy c1, fun _ hy => absurd hy c2, Or.inr ⟨_, e⟩⟩
  · exact ⟨fun hy => absurd hy c1, fun _ hy => absurd hy c2, Or.inl hscr⟩
  · exact ⟨fun hy => absurd hy c1, fun _ hy => absurd hy c2, Or.inl hscr⟩

theorem update_self_collision_witness :
    coilingGame.snake1.move = some coiledAfterMove ∧
    coiledAfterMove.checkSelfCollision = some (true, coiledAfterMove) ∧
    update cycleDraws 5 coilingGame =
      some (restartedGame "Player 1 (Green) died by self-collision. Player 2 (Blue) wins!") ∧
    (restartedGame "Player 1 (Green) died by self-collision. Player 2 (Blue) wins!").screen =
      coilingGame.screen ++
        ["Player 1 (Green) died by self-collision. Player 2 (Blue) wins!"] ∧
    (∃ g', Settles (fun fuel => update cycleDraws fuel coilingGame) g') ∧
    update cycleDraws 5 coilingGame2 =
      some (restartedGame "Player 2 (Blue) died by self-collision. Player 1 (Green) wins!") ∧
    (restartedGame "Player 2 (Blue) died by self-collision. Player 1 (Green) wins!").screen =
      coilingGame2.screen ++
        ["Player 2 (Blue) died by self-collision. Player 1 (Green) wins!"] :=
  have h := update_self_collision cycleDraws coilingGame coiledAfterMove
    { body := [⟨29, 15⟩], direction := Direction.LEFT, growing := false }
    (by decide) (by decide)
  have h' := update_self_collision cycleDraws coilingGame2
    { body := [⟨11, 15⟩], direction := Direction.RIGHT, growing := false }
    coiledAfterMove (by decide) (by decide)
  ⟨by decide, by decide, by decide,
   ((h.1 5 _ (by decide)).1 (by decide)).1,
   h.2 fair_cycleDraws ⟨⟨0, 0⟩, by decide, by decide, by decide⟩,
   by decide,
   ((h'.1 5 _ (by decide)).2.1 (by decide) (by decide)).1⟩

/-- C12: in a returned tick in which neither moved snake self-collides, when
the head of snake 2 is on a cell of snake 1 (its head included) the round
resets with the message that player 2 died and player 1 wins; otherwise, when
the head of snake 1 is on a cell of snake 2, it resets with the message that
player 1 died and player 2 wins; otherwise no message is shown.  Two heads on
the same cell are awarded to player 1.  On a fair stream with a grid cell off
both moved bodies the tick returns. -/
theorem update_cross_collision (r : Nat → Nat) (g : Game) (s1 s2 : Snake)
    (head1 head2 : SDL_Point)
    (h1 : g.snake1.move = some s1) (h2 : g.snake2.move = some s2)
    (hh1 : s1.body.head? = some head1) (hh2 : s2.body.head? = some head2)
    (hs1 : s1.checkSelfCollision = some (false, s1))
    (hs2 : s2.checkSelfCollision = some (false, s2)) :
    (∀ fuel g', update r fuel g = some g' →
      (head2 ∈ s1.body →
        g'.screen = g.screen ++
          ["Player 2 (Blue) died by colliding into Player 1 (Green). Player 1 wins!"] ∧
        FreshRound g') ∧
      (head2 ∉ s1.body → head1 ∈ s2.body →
        g'.screen = g.screen ++
          ["Player 1 (Green) died by colliding into Player 2 (Blue). Player 2 wins!"] ∧
        FreshRound g') ∧
      (head2 ∉ s1.body → head1 ∉ s2.body → g'.screen = g.screen) ∧
      (head1 = head2 →
        g'.screen = g.screen ++
          ["Player 2 (Blue) died by colliding into Player 1 (Green). Player 1 wins!"])) ∧
    (Fair r g.randCalls → (∃ c, InGrid c ∧ c ∉ s1.body ∧ c ∉ s2.body) →
      ∃ g', Settles (fun fuel => update r fuel g) g') := by
  refine ⟨?_, fun hfair hfree => update_settles r g s1 s2 h1 h2 hfair hfree⟩
  intro fuel g' hrun
  obtain ⟨s1', s2', hd1, rest1, hd2, rest2, gd, h1', h2', hr1, hr2, hfood, hcase⟩ :=
    update_outcome r fuel g g' hrun
  rw [h1] at h1'
  rw [h2] at h2'
  cases h1'
  cases h2'
  rw [hr1] at hh1
  rw [hr2] at hh2
  simp only [List.head?_cons, Option.some.injEq] at hh1 hh2
  subst hh1 hh2
  have hscr : gd.screen = g.screen := hfood.2.2.2.2.2.2.2
  rw [checkSelfCollision_false_iff s1 hd1 rest1 hr1] at hs1
  rw [checkSelfCollision_false_iff s2 hd2 rest2 hr2] at hs2
  have hmem1 : hd1 ∈ s1.body := by rw [hr1]; exact List.mem_cons_self _ _
  rw [hr1, hr2]
  rcases hcase with ⟨c1, _⟩ | ⟨_, c2, _⟩ | ⟨c1, c2, c3, hres⟩ |
    ⟨c1, c2, c3, c4, hres⟩ | ⟨⟨c1, c2, c3, c4⟩, _, rfl⟩ | ⟨⟨c1, c2, c3, c4⟩, _, c, n, _, _, rfl⟩
  · exact absurd c1 hs1
  · exact absurd c2 hs2
  · obtain ⟨e, _, hfresh⟩ := resetGame_effect r fuel _ gd g' hres
    rw [hscr] at e
    exact ⟨fun _ => ⟨e, hfresh⟩, fun hn => absurd c3 hn, fun hn => absurd c3 hn, fun _ => e⟩
  · obtain ⟨e, _, hfresh⟩ := resetGame_effect r fuel _ gd g' hres
    rw [hscr] at e
    refine ⟨fun hy => absurd hy c3, fun _ _ => ⟨e, hfresh⟩, fun _ hn => absurd c4 hn, ?_⟩
    intro heq
    exact absurd (heq ▸ List.mem_cons_self hd1 rest1) c3
  · refine ⟨fun hy => absurd hy c3, fun _ hy => absurd hy c4, fun _ _ => hscr, ?_⟩
    intro heq
    exact absurd (heq ▸ List.mem_cons_self hd1 rest1) c3
  · refine ⟨fun hy => absurd hy c3, fun _ hy => absurd hy c4, fun _ _ => hscr, ?_⟩
    intro heq
    exact absurd (heq ▸ List.mem_cons_self hd1 rest1) c3

theorem update_cross_collision_witness :
    update cycleDraws 5 crashGame =
      some (restartedGame
        "Player 2 (Blue) died by colliding into Player 1 (Green). Player 1 wins!") ∧
    (restartedGame
        "Player 2 (Blue) died by colliding into Player 1 (Green). Player 1 wins!").screen =
      crashGame.screen ++
        ["Player 2 (Blue) died by colliding into Player 1 (Green). Player 1 wins!"] ∧
    (∃ g', Settles (fun fuel => update cycleDraws fuel crashGame) g') ∧
    update cycleDraws 5 sideHitGame =
      some (restartedGame
        "Player 1 (Green) died by colliding into Player 2 (Blue). Player 2 wins!") ∧
    (restartedGame
        "Player 1 (Green) died by colliding into Player 2 (Blue). Player 2 wins!").screen =
      sideHitGame.screen ++
        ["Player 1 (Green) died by colliding into Player 2 (Blue). Player 2 wins!"] :=
  have h := update_cross_collision cycleDraws crashGame
    { body := [⟨11, 15⟩], direction := Direction.RIGHT, growing := false }
    { body := [⟨11, 15⟩], direction := Direction.LEFT, growing := false }
    ⟨11, 15⟩ ⟨11, 15⟩
    (by decide) (by decide) (by decide) (by decide) (by decide) (by decide)
  have h' := update_cross_collision cycleDraws sideHitGame
    { body := [⟨20, 11⟩], direction := Direction.RIGHT, growing := false }
    { body := [⟨20, 9⟩, ⟨20, 10⟩, ⟨20, 11⟩], direction := Direction.UP, growing := false }
    ⟨20, 11⟩ ⟨20, 9⟩
    (by decide) (by decide) (by decide) (by decide) (by decide) (by decide)
  ⟨by decide, (h.1 5 _ (by decide)).2.2.2 rfl,
   h.2 fair_cycleDraws ⟨⟨0, 0⟩, by decide, by decide, by decide⟩,
   by decide, ((h'.1 5 _ (by decide)).2.1 (by decide) (by decide)).1⟩

/-- C19: a returned `resetGame` leaves the bonus-food timer unchanged, and a
returned tick that ends in a round reset (it shows a message; equivalently, one
of the four collision tests fires on the moved snakes) leaves the timer as it
was before the tick.  On a fair stream `resetGame` returns. -/
theorem reset_keeps_timer (r : Nat → Nat) (g : Game) :
    (∀ fuel message g', resetGame r fuel message g = some g' →
      g'.bonusFoodTimer = g.bonusFoodTimer) ∧
    (∀ fuel g', update r fuel g = some g' → g'.screen ≠ g.screen →
      g'.bonusFoodTimer = g.bonusFoodTimer) ∧
    (∀ fuel g' s1 s2 head1 rest1 head2 rest2, update r fuel g = some g' →
      g.snake1.move = some s1 → g.snake2.move = some s2 →
      s1.body = head1 :: rest1 → s2.body = head2 :: rest2 →
      ¬ Clear head1 head2 rest1 rest2 →
      g'.screen ≠ g.screen ∧ g'.bonusFoodTimer = g.bonusFoodTimer) ∧
    (Fair r g.randCalls → ∀ message,
      ∃ g', Settles (fun fuel => resetGame r fuel message g) g' ∧
        g'.bonusFoodTimer = g.bonusFoodTimer) := by
  have key : ∀ fuel g', update r fuel g = some g' →
      ∀ s1 s2 head1 rest1 head2 rest2, g.snake1.move = some s1 → g.snake2.move = some s2 →
      s1.body = head1 :: rest1 → s2.body = head2 :: rest2 →
      (g'.screen ≠ g.screen ∧ g'.bonusFoodTimer = g.bonusFoodTimer) ∨
      (g'.screen = g.screen ∧ Clear head1 head2 rest1 rest2) := by
    intro fuel g' hrun s1 s2 head1 rest1 head2 rest2 h1 h2 hr1 hr2
    obtain ⟨s1', s2', hd1, rs1, hd2, rs2, gd, h1', h2', hr1', hr2', hfood, hcase⟩ :=
      update_outcome r fuel g g' hrun
    rw [h1] at h1'
    rw [h2] at h2'
    cases h1'
    cases h2'
    rw [hr1] at hr1'
    rw [hr2] at hr2'
    cases hr1'
    cases hr2'
    have hscr : gd.screen = g.screen := hfood.2.2.2.2.2.2.2
    have htim : gd.bonusFoodTimer = g.bonusFoodTimer := hfood.2.2.2.2.2.2.1
    have hreset : ∀ message, resetGame r fuel message gd = some g' →
        g'.screen ≠ g.screen ∧ g'.bonusFoodTimer = g.bonusFoodTimer := by
      intro message hres
      obtain ⟨e, et, _⟩ := resetGame_effect r fuel message gd g' hres
      rw [hscr] at e
      rw [htim] at et
      refine ⟨?_, et⟩
      rw [e]
      simp
    rcases hcase with ⟨_, hres⟩ | ⟨_, _, hres⟩ | ⟨_, _, _, hres⟩ |
      ⟨_, _, _, _, hres⟩ | ⟨hclear, _, rfl⟩ | ⟨hclear, _, c, n, _, _, rfl⟩
    · exact Or.inl (hreset _ hres)
    · exact Or.inl (hreset _ hres)
    · exact Or.inl (hreset _ hres)
    · exact Or.inl (hreset _ hres)
    · exact Or.inr ⟨hscr, hclear⟩
    · exact Or.inr ⟨hscr, hclear⟩
  refine ⟨?_, ?_, ?_, ?_⟩
  · intro fuel message g' hres
    exact (resetGame_effect r fuel message g g' hres).2.1
  · intro fuel g' hrun hne
    obtain ⟨s1, s2, head1, rest1, head2, rest2, _, h1, h2, hr1, hr2, _, _⟩ :=
      update_outcome r fuel g g' hrun
    rcases key fuel g' hrun s1 s2 head1 rest1 head2 rest2 h1 h2 hr1 hr2 with hres | hq
    · exact hres.2
    · exact absurd hq.1 hne
  · intro fuel g' s1 s2 head1 rest1 head2 rest2 hrun h1 h2 hr1 hr2 hnc
    rcases key fuel g' hrun s1 s2 head1 rest1 head2 rest2 h1 h2 hr1 hr2 with hres | hq
    · exact hres
    · exact absurd hq.2 hnc
  · intro hfair message
    obtain ⟨g', N, hN⟩ := resetGame_settles r message g hfair
    exact ⟨g', ⟨N, hN⟩, (resetGame_effect r N message g g' (hN N (le_refl N))).2.1⟩

theorem reset_keeps_timer_witness :
    resetGame cycleDraws 5 "Round over" { coilingGame with bonusFoodTimer := 321 } =
      some { restartedGame "Round over" with bonusFoodTimer := 321 } ∧
    update cycleDraws 5 { coilingGame with bonusFoodTimer := 321 } =
      some { restartedGame "Player 1 (Green) died by self-collision. Player 2 (Blue) wins!"
             with bonusFoodTimer := 321 } ∧
    ({ restartedGame "Player 1 (Green) died by self-collision. Player 2 (Blue) wins!"
       with bonusFoodTimer := 321 } : Game).bonusFoodTimer =
      ({ coilingGame with bonusFoodTimer := 321 } : Game).bonusFoodTimer ∧
    ∃ g', Settles (fun fuel => resetGame cycleDraws fuel "Round over"
        { coilingGame with bonusFoodTimer := 321 }) g' ∧
      g'.bonusFoodTimer = ({ coilingGame with bonusFoodTimer := 321 } : Game).bonusFoodTimer :=
  have h := reset_keeps_timer cycleDraws { coilingGame with bonusFoodTimer := 321 }
  ⟨by decide, by decide, h.2.1 5 _ (by decide) (by decide),
   h.2.2.2 fair_cycleDraws "Round over"⟩

/-! ### Ticks without a round reset -/

/-- A returned tick that shows no message: no collision test fires, the state
`gd` after the food tests only has its timer advanced, and when the timer
passes 1000 it is set to 0 and the bonus food is re-placed off both snakes. -/
theorem quiet_tick (r : Nat → Nat) (fuel : Nat) (g g' : Game)
    (h : update r fuel g = some g') (hq : g'.screen = g.screen) :
    ∃ s1 s2 head1 rest1 head2 rest2 gd,
      g.snake1.move = some s1 ∧ g.snake2.move = some s2 ∧
      s1.body = head1 :: rest1 ∧ s2.body = head2 :: rest2 ∧
      AfterFood g s1 s2 head1 head2 gd ∧ Clear head1 head2 rest1 rest2 ∧
      g'.snake1 = gd.snake1 ∧ g'.snake2 = gd.snake2 ∧
      g'.score1 = gd.score1 ∧ g'.score2 = gd.score2 ∧ g'.food = gd.food ∧
      g'.bonusFoodTimer = (if 1000 < g.bonusFoodTimer + 1 then 0 else g.bonusFoodTimer + 1) ∧
      (if 1000 < g.bonusFoodTimer + 1 then g'.bonusFood ∉ s1.body ∧ g'.bonusFood ∉ s2.body
        else g'.bonusFood = gd.bonusFood) := by
  obtain ⟨s1, s2, head1, rest1, head2, rest2, gd, h1, h2, hr1, hr2, hfood, hcase⟩ :=
    update_outcome r fuel g g' h
  have hscr : gd.screen = g.screen := hfood.2.2.2.2.2.2.2
  have hreset : ∀ message, resetGame r fuel message gd = some g' → False := by
    intro message hres
    obtain ⟨e, _, _⟩ := resetGame_effect r fuel message gd g' hres
    rw [hscr, hq] at e
    simp at e
  refine ⟨s1, s2, head1, rest1, head2, rest2, gd, h1, h2, hr1, hr2, hfood, ?_⟩
  rcases hcase with ⟨_, hres⟩ | ⟨_, _, hres⟩ | ⟨_, _, _, hres⟩ |
    ⟨_, _, _, _, hres⟩ | ⟨hclear, ht, rfl⟩ | ⟨hclear, ht, c, n, hc1, hc2, rfl⟩
  · exact absurd hres (fun h => hreset _ h)
  · exact absurd hres (fun h => hreset _ h)
  · exact absurd hres (fun h => hreset _ h)
  · exact absurd hres (fun h => hreset _ h)
  · have hn : ¬ 1000 < g.bonusFoodTimer + 1 := by omega
    rw [if_neg hn, if_neg hn]
    exact ⟨hclear, rfl, rfl, rfl, rfl, rfl, rfl, rfl⟩
  · rw [if_pos ht, if_pos ht]
    exact ⟨hclear, rfl, rfl, rfl, rfl, rfl, rfl, hc1, hc2⟩

/-- C14 (amended): in a returned tick without a round reset, a snake whose
head is, after moving, on the bonus food cell and not on the regular food cell
scores exactly 2 and has growth pending, and the bonus food is re-placed on a
cell off both snakes, different from its previous cell; the regular food is
unchanged unless the head of the other snake is on it, in which case it is
re-placed off both snakes.  On a fair stream with a grid cell off both moved
bodies the tick returns. -/
theorem update_bonus (r : Nat → Nat) (g : Game) (s1 s2 : Snake) (head1 head2 : SDL_Point)
    (h1 : g.snake1.move = some s1) (h2 : g.snake2.move = some s2)
    (hh1 : s1.body.head? = some head1) (hh2 : s2.body.head? = some head2) :
    (∀ fuel g', update r fuel g = some g' → g'.screen = g.screen →
      (head1 = g.bonusFood → head1 ≠ g.food →
        g'.score1 = g.score1 + 2 ∧ g'.snake1.growing = true ∧
        OffSnakes g' g'.bonusFood ∧ g'.bonusFood ≠ g.bonusFood ∧
        (head2 ≠ g.food → g'.food = g.food) ∧
        (head2 = g.food → OffSnakes g' g'.food)) ∧
      (head2 = g.bonusFood → head2 ≠ g.food →
        g'.score2 = g.score2 + 2 ∧ g'.snake2.growing = true ∧
        OffSnakes g' g'.bonusFood ∧ g'.bonusFood ≠ g.bonusFood ∧
        (head1 ≠ g.food → g'.food = g.food) ∧
        (head1 = g.food → OffSnakes g' g'.food))) ∧
    (Fair r g.randCalls → (∃ c, InGrid c ∧ c ∉ s1.body ∧ c ∉ s2.body) →
      ∃ g', Settles (fun fuel => update r fuel g) g') := by
  refine ⟨?_, fun hfair hfree => update_settles r g s1 s2 h1 h2 hfair hfree⟩
  intro fuel g' hrun hq
  obtain ⟨s1', s2', hd1, rest1, hd2, rest2, gd, h1', h2', hr1, hr2,
    ⟨f1, f2, f3, f4, f5, f6, _, _⟩, ⟨_, _, c3, _⟩, e1, e2, e3, e4, e5, _, e7⟩ :=
    quiet_tick r fuel g g' hrun hq
  rw [h1] at h1'
  rw [h2] at h2'
  cases h1'
  cases h2'
  rw [hr1] at hh1
  rw [hr2] at hh2
  simp only [List.head?_cons, Option.some.injEq] at hh1 hh2
  subst hh1 hh2
  have hne : hd2 ≠ hd1 := fun h => c3 (h ▸ List.mem_cons_self hd2 rest1)
  have hm1 : hd1 ∈ s1.body := by rw [hr1]; exact List.mem_cons_self _ _
  have hm2 : hd2 ∈ s2.body := by rw [hr2]; exact List.mem_cons_self _ _
  have hb1 : g'.snake1.body = s1.body := by rw [e1, f1, ite_grow_body]
  have hb2 : g'.snake2.body = s2.body := by rw [e2, f2, ite_grow_body]
  have hoff : ∀ c, c ∉ s1.body ∧ c ∉ s2.body → OffSnakes g' c := by
    intro c hc
    exact ⟨by rw [hb1]; exact hc.1, by rw [hb2]; exact hc.2⟩
  have hbonus : hd1 = g.bonusFood ∨ hd2 = g.bonusFood →
      g'.bonusFood ∉ s1.body ∧ g'.bonusFood ∉ s2.body := by
    intro hb
    rw [if_pos hb] at f6
    split_ifs at e7 with ht
    · exact e7
    · rw [e7]
      exact f6
  constructor
  · intro hb hf
    have hoffb := hbonus (Or.inl hb)
    refine ⟨?_, ?_, hoff _ hoffb, ?_, ?_, ?_⟩
    · rw [e3, f3, if_neg hf, if_pos hb]
      ring
    · rw [e1, f1, if_pos (Or.inr hb)]
      rfl
    · intro h
      exact hoffb.1 (by rw [h, ← hb]; exact hm1)
    · intro hf2
      rw [e5]
      rw [if_neg (not_or.mpr ⟨hf, hf2⟩)] at f5
      exact f5
    · intro hf2
      rw [e5]
      rw [if_pos (Or.inr hf2)] at f5
      exact hoff _ f5
  · intro hb hf
    have hoffb := hbonus (Or.inr hb)
    have hnb : hd1 ≠ g.bonusFood := fun h => hne (hb.trans h.symm)
    refine ⟨?_, ?_, hoff _ hoffb, ?_, ?_, ?_⟩
    · rw [e4, f4, if_neg (fun h => hf h.1), if_pos ⟨hb, hnb⟩]
      ring
    · rw [e2, f2, if_pos (Or.inr ⟨hb, hnb⟩)]
      rfl
    · intro h
      exact hoffb.2 (by rw [h, ← hb]; exact hm2)
    · intro hf1
      rw [e5]
      rw [if_neg (not_or.mpr ⟨hf1, hf⟩)] at f5
      exact f5
    · intro hf1
      rw [e5]
      rw [if_pos (Or.inl hf1)] at f5
      exact hoff _ f5

/-- C14 as stated fails: with the head of snake 1 entering the bonus food cell
and the head of snake 2 entering the regular food cell, the tick returns
without a reset and the regular food has been re-placed. -/
theorem update_bonus_counterexample :
    (bonusGame.snake1.move.bind fun s1 => s1.body.head?) = some bonusGame.bonusFood ∧
    bonusGame.bonusFood ≠ bonusGame.food ∧
    update cycleDraws 5 bonusGame =
      some { snake1 := { body := [⟨11, 15⟩], direction := Direction.RIGHT, growing := true }
             snake2 := { body := [⟨29, 15⟩], direction := Direction.LEFT, growing := true }
             food := ⟨0, 0⟩
             bonusFood := ⟨0, 1⟩
             score1 := 2
             score2 := 1
             bonusFoodTimer := 1
             randCalls := 4
             screen := bonusGame.screen } ∧
    (⟨0, 0⟩ : SDL_Point) ≠ bonusGame.food := by
  refine ⟨by decide, by decide, by decide, by decide⟩

theorem update_bonus_witness :
    update cycleDraws 5 bonusOnlyGame =
      some { snake1 := { body := [⟨11, 15⟩], direction := Direction.RIGHT, growing := true }
             snake2 := { body := [⟨29, 15⟩], direction := Direction.LEFT, growing := false }
             food := ⟨0, 20⟩
             bonusFood := ⟨0, 0⟩
             score1 := 2
             score2 := 0
             bonusFoodTimer := 1
             randCalls := 2
             screen := [] } ∧
    (2 : Int) = bonusOnlyGame.score1 + 2 ∧
    (∃ g', Settles (fun fuel => update cycleDraws fuel bonusOnlyGame) g') :=
  have h := update_bonus cycleDraws bonusOnlyGame
    { body := [⟨11, 15⟩], direction := Direction.RIGHT, growing := false }
    { body := [⟨29, 15⟩], direction := Direction.LEFT, growing := false }
    ⟨11, 15⟩ ⟨29, 15⟩ (by decide) (by decide) (by decide) (by decide)
  ⟨by decide,
   ((h.1 5
      { snake1 := { body := [⟨11, 15⟩], direction := Direction.RIGHT, growing := true }
        snake2 := { body := [⟨29, 15⟩], direction := Direction.LEFT, growing := false }
        food := ⟨0, 20⟩
        bonusFood := ⟨0, 0⟩
        score1 := 2
        score2 := 0
        bonusFoodTimer := 1
        randCalls := 2
        screen := [] } (by decide) (by decide)).1 (by decide) (by decide)).1,
   h.2 fair_cycleDraws ⟨⟨0, 0⟩, by decide, by decide, by decide⟩⟩

/-- C18 as stated fails: when the heads of both snakes enter the cell that
holds both food items, the tick ends in a round reset; the score of snake 1 is
0 afterwards, not 3 higher, and its body is a single cell without pending
growth. -/
theorem update_both_counterexample :
    (overlapCrashGame.snake1.move.bind fun s1 => s1.body.head?) =
      some overlapCrashGame.food ∧
    overlapCrashGame.bonusFood = overlapCrashGame.food ∧
    update cycleDraws 5 overlapCrashGame =
      some { snake1 := { body := [⟨10, 15⟩], direction := Direction.RIGHT, growing := false }
             snake2 := { body := [⟨30, 15⟩], direction := Direction.LEFT, growing := false }
             food := ⟨0, 2⟩
             bonusFood := ⟨0, 3⟩
             score1 := 0
             score2 := 0
             bonusFoodTimer := 0
             randCalls := 8
             screen :=
               ["Player 2 (Blue) died by colliding into Player 1 (Green). Player 1 wins!"] } ∧
    (0 : Int) ≠ overlapCrashGame.score1 + 3 := by
  refine ⟨by decide, by decide, by decide, by decide⟩

/-- C18 (amended): `grow()` is idempotent; in a returned tick without a round
reset in which the head of a snake is, after moving, on a cell that holds both
the regular and the bonus food, that snake scores 3 and is left as the moved
snake with growth pending, so that its body is only one cell longer after the
following move.  On a fair stream with a grid cell off both moved bodies the
tick returns. -/
theorem grow_idempotent (r : Nat → Nat) (g : Game) (s1 s2 : Snake) (head1 head2 : SDL_Point)
    (h1 : g.snake1.move = some s1) (h2 : g.snake2.move = some s2)
    (hh1 : s1.body.head? = some head1) (hh2 : s2.body.head? = some head2) :
    (∀ s : Snake, s.grow.grow = s.grow) ∧
    (∀ fuel g', update r fuel g = some g' → g'.screen = g.screen →
      (head1 = g.food → head1 = g.bonusFood →
        g'.score1 = g.score1 + 3 ∧ g'.snake1 = s1.grow ∧
        ∃ s1', g'.snake1.move = some s1' ∧ s1'.body.length = s1.body.length + 1) ∧
      (head2 = g.food → head2 = g.bonusFood →
        g'.score2 = g.score2 + 3 ∧ g'.snake2 = s2.grow ∧
        ∃ s2', g'.snake2.move = some s2' ∧ s2'.body.length = s2.body.length + 1)) ∧
    (Fair r g.randCalls → (∃ c, InGrid c ∧ c ∉ s1.body ∧ c ∉ s2.body) →
      ∃ g', Settles (fun fuel => update r fuel g) g') := by
  refine ⟨fun s => rfl, ?_, fun hfair hfree => update_settles r g s1 s2 h1 h2 hfair hfree⟩
  intro fuel g' hrun hq
  obtain ⟨s1', s2', hd1, rest1, hd2, rest2, gd, h1', h2', hr1, hr2,
    ⟨f1, f2, f3, f4, _, _, _, _⟩, ⟨_, _, c3, _⟩, e1, e2, e3, e4, _, _, _⟩ :=
    quiet_tick r fuel g g' hrun hq
  rw [h1] at h1'
  rw [h2] at h2'
  cases h1'
  cases h2'
  rw [hr1] at hh1
  rw [hr2] at hh2
  simp only [List.head?_cons, Option.some.injEq] at hh1 hh2
  subst hh1 hh2
  have hne : hd2 ≠ hd1 := fun h => c3 (h ▸ List.mem_cons_self hd2 rest1)
  have hlen : ∀ s : Snake, s.body ≠ [] →
      ∃ s', s.grow.move = some s' ∧ s'.body.length = s.body.length + 1 := by
    intro s hs
    obtain ⟨s', hm, _, hl⟩ := move_length_of_ne s.grow hs
    exact ⟨s', hm, by simpa [Snake.grow] using hl⟩
  constructor
  · intro hf hb
    refine ⟨?_, ?_, ?_⟩
    · rw [e3, f3, if_pos hf, if_pos hb]
      ring
    · rw [e1, f1, if_pos (Or.inl hf)]
    · rw [e1, f1, if_pos (Or.inl hf)]
      exact hlen s1 (by rw [hr1]; exact List.cons_ne_nil _ _)
  · intro hf hb
    have hnf : hd1 ≠ g.food := fun h => hne (hf.trans h.symm)
    have hnb : hd1 ≠ g.bonusFood := fun h => hne (hb.trans h.symm)
    refine ⟨?_, ?_, ?_⟩
    · rw [e4, f4, if_pos ⟨hf, hnf⟩, if_pos ⟨hb, hnb⟩]
      ring
    · rw [e2, f2, if_pos (Or.inl ⟨hf, hnf⟩)]
    · rw [e2, f2, if_pos (Or.inl ⟨hf, hnf⟩)]
      exact hlen s2 (by rw [hr2]; exact List.cons_ne_nil _ _)

theorem grow_idempotent_witness :
    update cycleDraws 5 overlapGame =
      some { snake1 := { body := [⟨11, 15⟩], direction := Direction.RIGHT, growing := true }
             snake2 := { body := [⟨29, 15⟩], direction := Direction.LEFT, growing := false }
             food := ⟨0, 0⟩
             bonusFood := ⟨0, 1⟩
             score1 := 3
             score2 := 0
             bonusFoodTimer := 1
             randCalls := 4
             screen := [] } ∧
    (3 : Int) = overlapGame.score1 + 3 ∧
    (∃ g', Settles (fun fuel => update cycleDraws fuel overlapGame) g') :=
  have h := grow_idempotent cycleDraws overlapGame
    { body := [⟨11, 15⟩], direction := Direction.RIGHT, growing := false }
    { body := [⟨29, 15⟩], direction := Direction.LEFT, growing := false }
    ⟨11, 15⟩ ⟨29, 15⟩ (by decide) (by decide) (by decide) (by decide)
  ⟨by decide,
   ((h.2.1 5
      { snake1 := { body := [⟨11, 15⟩], direction := Direction.RIGHT, growing := true }
        snake2 := { body := [⟨29, 15⟩], direction := Direction.LEFT, growing := false }
        food := ⟨0, 0⟩
        bonusFood := ⟨0, 1⟩
        score1 := 3
        score2 := 0
        bonusFoodTimer := 1
        randCalls := 4
        screen := [] } (by decide) (by decide)).1 (by decide) (by decide)).1,
   h.2.2 fair_cycleDraws ⟨⟨0, 0⟩, by decide, by decide, by decide⟩⟩

/-! ### Runs of the game loop -/

theorem setDirection_frame (s : Snake) (d : Direction) :
    (s.setDirection d).body = s.body ∧ (s.setDirection d).growing = s.growing := by
  unfold Snake.setDirection
  split_ifs <;> exact ⟨rfl, rfl⟩

/-- `handleInput` changes nothing but the headings. -/
theorem handleInput_frame (e : SDL_Event) (g : Game) :
    (handleInput e g).snake1.body = g.snake1.body ∧
    (handleInput e g).snake1.growing = g.snake1.growing ∧
    (handleInput e g).snake2.body = g.snake2.body ∧
    (handleInput e g).snake2.growing = g.snake2.growing ∧
    (handleInput e g).score1 = g.score1 ∧ (handleInput e g).score2 = g.score2 ∧
    (handleInput e g).food = g.food ∧ (handleInput e g).bonusFood = g.bonusFood ∧
    (handleInput e g).bonusFoodTimer = g.bonusFoodTimer ∧
    (handleInput e g).screen = g.screen := by
  cases e with
  | SDL_QUIT => exact ⟨rfl, rfl, rfl, rfl, rfl, rfl, rfl, rfl, rfl, rfl⟩
  | other => exact ⟨rfl, rfl, rfl, rfl, rfl, rfl, rfl, rfl, rfl, rfl⟩
  | SDL_KEYDOWN sym =>
    cases sym <;>
      simp [handleInput, (setDirection_frame _ _).1, (setDirection_frame _ _).2]

/-- A move keeps the number of gained cells and clears the flag. -/
theorem gained_move (s s' : Snake) (h : s.move = some s') :
    gained s' = gained s ∧ s'.growing = false := by
  cases hb : s.body with
  | nil => simp [Snake.move, hb] at h
  | cons front rest =>
    rw [move_cons s front rest hb] at h
    cases h
    cases hg : s.growing <;> simp [gained, hb, hg]

theorem gained_grow (s : Snake) (hg : s.growing = false) : gained s.grow = gained s + 1 := by
  simp [gained, Snake.grow, hg]

/-- The bounds survive the food tests of a tick: a snake that takes an item
gains one cell and scores 1, 2 or 3. -/
theorem bounds_food (p b : Prop) [Decidable p] [Decidable b] (s : Snake) (score : Int)
    (hg : s.growing = false) (h : gained s ≤ score ∧ score ≤ 3 * gained s) :
    gained (if p ∨ b then s.grow else s) ≤
        score + (if p then 1 else 0) + (if b then 2 else 0) ∧
      score + (if p then 1 else 0) + (if b then 2 else 0) ≤
        3 * gained (if p ∨ b then s.grow else s) := by
  by_cases hp : p <;> by_cases hb : b <;> simp [hp, hb, gained_grow s hg] <;> omega

theorem scoreBounds_fresh (g : Game) (h : FreshRound g) : ScoreBounds g := by
  obtain ⟨e1, e2, e3, e4, _, _⟩ := h
  simp [ScoreBounds, gained, e1, e2, e3, e4]

/-- The state that a returned constructor leaves is a fresh round with the
timer at 0 and an empty screen. -/
theorem new_result (r : Nat → Nat) (fuel : Nat) (food0 bonus0 : SDL_Point) (g : Game)
    (h : Game.new r fuel food0 bonus0 = some g) :
    FreshRound g ∧ g.bonusFoodTimer = 0 ∧ g.screen = [] := by
  simp only [Game.new, Option.bind_eq_some] at h
  obtain ⟨ga, hga, hgb⟩ := h
  obtain ⟨c, n, hc, rfl⟩ := placeFood_result r fuel _ ga hga
  obtain ⟨c', n', hc', rfl⟩ := placeBonusFood_result r fuel _ g hgb
  refine ⟨⟨?_, ?_, rfl, rfl, hc, hc'⟩, rfl, rfl⟩
  · simp only [Snake.new, Snake.mk.injEq, List.cons.injEq, SDL_Point.mk.injEq, and_true]
    exact ⟨by decide, by decide⟩
  · simp only [Snake.new, Snake.mk.injEq, List.cons.injEq, SDL_Point.mk.injEq, and_true]
    exact ⟨by decide, by decide⟩

/-- A returned tick keeps the bounds. -/
theorem scoreBounds_update (r : Nat → Nat) (fuel : Nat) (g g' : Game)
    (h : update r fuel g = some g') (hb : ScoreBounds g) : ScoreBounds g' := by
  obtain ⟨s1, s2, head1, rest1, head2, rest2, gd, h1, h2, hr1, hr2,
    ⟨f1, f2, f3, f4, _, _, _, _⟩, hcase⟩ := update_outcome r fuel g g' h
  obtain ⟨q1, g1⟩ := gained_move _ _ h1
  obtain ⟨q2, g2⟩ := gained_move _ _ h2
  have hgd : ScoreBounds gd := by
    obtain ⟨b1, b2, b3, b4⟩ := hb
    rw [← q1] at b1 b2
    rw [← q2] at b3 b4
    have k1 := bounds_food (head1 = g.food) (head1 = g.bonusFood) s1 g.score1 g1 ⟨b1, b2⟩
    have k2 := bounds_food (head2 = g.food ∧ head1 ≠ g.food)
      (head2 = g.bonusFood ∧ head1 ≠ g.bonusFood) s2 g.score2 g2 ⟨b3, b4⟩
    simp only [ScoreBounds, f1, f2, f3, f4]
    exact ⟨k1.1, k1.2, k2.1, k2.2⟩
  rcases hcase with ⟨_, hres⟩ | ⟨_, _, hres⟩ | ⟨_, _, _, hres⟩ |
    ⟨_, _, _, _, hres⟩ | ⟨_, _, rfl⟩ | ⟨_, _, c, n, _, _, rfl⟩
  · exact scoreBounds_fresh _ (resetGame_effect r fuel _ gd g' hres).2.2
  · exact scoreBounds_fresh _ (resetGame_effect r fuel _ gd g' hres).2.2
  · exact scoreBounds_fresh _ (resetGame_effect r fuel _ gd g' hres).2.2
  · exact scoreBounds_fresh _ (resetGame_effect r fuel _ gd g' hres).2.2
  · exact hgd
  · exact hgd

/-- C20: in every state that the game loop reaches from the state the
constructor leaves, by ticks and by handled events, each score lies between
the number `q` of cells its snake has gained or is about to gain (body length
minus one, plus one when growth is pending) and `3 * q`. -/
theorem score_bounds (r : Nat → Nat) (g : Game) (h : Reachable r g) : ScoreBounds g := by
  induction h with
  | start fuel food0 bonus0 g hnew =>
    exact scoreBounds_fresh g (new_result r fuel food0 bonus0 g hnew).1
  | input e g _ ih =>
    obtain ⟨e1, e2, e3, e4, e5, e6, _⟩ := handleInput_frame e g
    simp only [ScoreBounds, gained, e1, e2, e3, e4, e5, e6]
    exact ih
  | tick fuel g g' _ hup ih => exact scoreBounds_update r fuel g g' hup ih

/-- Handling events keeps a state within the states of the loop. -/
theorem reachable_events (r : Nat → Nat) (events : List SDL_Event) :
    ∀ g : Game, Reachable r g →
      Reachable r (events.foldl (fun g e => handleInput e g) g) := by
  induction events with
  | nil =>
    intro g hg
    exact hg
  | cons e rest ih =>
    intro g hg
    exact ih _ (Reachable.input e g hg)

/-- Running frames keeps a state within the states of the loop. -/
theorem reachable_runFrames (r : Nat → Nat) (fuel : Nat) (frames : List (List SDL_Event)) :
    ∀ g g' : Game, Reachable r g → runFrames r fuel frames g = some g' → Reachable r g' := by
  induction frames with
  | nil =>
    intro g g' hg hrun
    simp only [runFrames, Option.some.injEq] at hrun
    rw [← hrun]
    exact hg
  | cons events rest ih =>
    intro g g' hg hrun
    simp only [runFrames, Option.bind_eq_some] at hrun
    obtain ⟨g1, hup, hrest⟩ := hrun
    exact ih g1 g' (Reachable.tick fuel _ g1 (reachable_events r events g hg) hup) hrest

theorem score_bounds_witness :
    Game.new nearDraws 5 ⟨7, 7⟩ ⟨8, 8⟩ = some nearFirst ∧
    runFrames nearDraws 5 [[], []] nearFirst = some grownGame ∧
    Reachable nearDraws grownGame ∧ ScoreBounds grownGame ∧
    gained grownGame.snake1 = 2 ∧ grownGame.score1 = 3 ∧
    runFrames nearDraws 5
        [[SDL_Event.SDL_KEYDOWN Keycode.SDLK_s, SDL_Event.SDL_KEYDOWN Keycode.SDLK_UP]]
        grownGame = some steeredGame ∧
    Reachable nearDraws steeredGame ∧ ScoreBounds steeredGame ∧
    steeredGame.snake1.body.length = 3 ∧ gained steeredGame.snake1 = 2 ∧
    steeredGame.score1 = 3 ∧
    runFrames nearDraws 5 (List.replicate 10 []) nearFirst = some crashedGame ∧
    Reachable nearDraws crashedGame ∧ ScoreBounds crashedGame ∧
    gained crashedGame.snake1 = 0 ∧ crashedGame.score1 = 0 ∧
    Game.new cycleDraws 5 ⟨7, 7⟩ ⟨8, 8⟩ = some firstGame ∧
    update cycleDraws 5 (handleInput (SDL_Event.SDL_KEYDOWN Keycode.SDLK_w) firstGame) =
      some secondGame ∧
    Reachable cycleDraws secondGame ∧ ScoreBounds secondGame :=
  have hnear : Reachable nearDraws nearFirst :=
    Reachable.start 5 ⟨7, 7⟩ ⟨8, 8⟩ nearFirst (by decide)
  have hgrown : Reachable nearDraws grownGame :=
    reachable_runFrames nearDraws 5 [[], []] nearFirst grownGame hnear (by decide)
  have hsteered : Reachable nearDraws steeredGame :=
    reachable_runFrames nearDraws 5
      [[SDL_Event.SDL_KEYDOWN Keycode.SDLK_s, SDL_Event.SDL_KEYDOWN Keycode.SDLK_UP]]
      grownGame steeredGame hgrown (by decide)
  have hcrashed : Reachable nearDraws crashedGame :=
    reachable_runFrames nearDraws 5 (List.replicate 10 []) nearFirst crashedGame hnear
      (by decide)
  have hstart : Reachable cycleDraws firstGame :=
    Reachable.start 5 ⟨7, 7⟩ ⟨8, 8⟩ firstGame (by decide)
  have htick : Reachable cycleDraws secondGame :=
    Reachable.tick 5 _ secondGame
      (Reachable.input (SDL_Event.SDL_KEYDOWN Keycode.SDLK_w) firstGame hstart) (by decide)
  ⟨by decide, by decide, hgrown, score_bounds nearDraws grownGame hgrown, by decide,
   by decide, by decide, hsteered, score_bounds nearDraws steeredGame hsteered, by decide,
   by decide, by decide, by decide, hcrashed, score_bounds nearDraws crashedGame hcrashed,
   by decide, by decide, by decide, by decide, htick,
   score_bounds cycleDraws secondGame htick⟩

end SnakeGame
